import Mathlib

/-!
Shallow embedding of the AMPv3 trading pipeline (Python sources under `src/`)
together with proofs settling the frozen claims about it.

Conventions of the embedding:
* Python `float` is modelled by `ℚ` (exact rational arithmetic); the literal
  constants of the source (`1e-12`, `0.00020`, `0.30`, ...) are translated as
  the exact rationals those decimal literals denote.
* Python `Optional[float]` becomes `Option ℚ`; `None`-propagation and
  `isinstance(x, (int, float))` tests become `Option` pattern matches.
* Python lists are Lean `List`s; negative-index slices `xs[-n:]` are modelled
  by `sliceLast` below (for `n = 0` Python returns the whole list).
* Each definition mirrors one Python function and is named after it.
-/

namespace AMP

attribute [local semireducible] Rat.add Rat.sub Rat.mul Rat.inv Rat.ofScientific

/-- Python slice `xs[-n:]`: the last `n` elements (whole list when `n = 0`,
because Python `xs[-0:]` is `xs[0:]`). -/
def sliceLast (l : List α) (n : Nat) : List α :=
  if n = 0 then l else l.drop (l.length - n)

/-- Python `str.upper()` on the ASCII symbol names, as a per-character map
(`String.toUpper` itself is opaque to kernel reduction). -/
def strUpper (s : String) : String := ⟨s.data.map Char.toUpper⟩

/-- Stable insertion step: place `x` before the first `y` with `le x y`
(ties keep the earlier element first, as Python's stable `sort` does). -/
def insertLe (le : α → α → Bool) (x : α) : List α → List α
  | [] => [x]
  | y :: rest => if le x y then x :: y :: rest else y :: insertLe le x rest

/-- Stable insertion sort, modelling Python's `list.sort(key=...)`: same
multiset, sorted under `le`, ties in original order. -/
def insSort (le : α → α → Bool) : List α → List α
  | [] => []
  | x :: rest => insertLe le x (insSort le rest)

/-- `src/app/data/models.py` — `Candle` (ts, open, high, low, close, volume). -/
structure Candle where
  ts : Int
  o : ℚ
  h : ℚ
  l : ℚ
  c : ℚ
  v : ℚ
deriving Repr, DecidableEq

/-- `src/app/data/models.py` — `Derivatives1H`.  The `meta : Dict[str, str]`
bag is modelled as an association list. -/
structure Derivatives1H where
  funding_rate : Option ℚ
  open_interest : Option ℚ
  long_short_ratio : Option ℚ
  ratio_long_pct : Option ℚ
  meta : List (String × String)
deriving Repr, DecidableEq

/-- `src/app/data/models.py` — `MarketSnapshot`. -/
structure MarketSnapshot where
  symbol : String
  candles_15m : List Candle
  candles_1h : List Candle
  candles_4h : List Candle
  deriv_1h : Derivatives1H
  spread_bps : Option ℚ := none
  spread_pct : Option ℚ := none
  bid : Option ℚ := none
  ask : Option ℚ := none
  mark_price : Option ℚ := none
  last_updated_ts : Option Int := none
deriving Repr, DecidableEq

/-! ## Rolling derivatives engine (`src/app/data/derivatives_fetcher.py`) -/

/-- One point of the per-(venue, symbol) rolling series: the dict built at
`derivatives_fetcher.py` lines 88-96. -/
structure DerivPoint where
  ts : Int
  bucket_ts : Int
  exchange : String
  symbol : String
  oi : Option ℚ
  funding : Option ℚ
  ratio_long_pct : Option ℚ
deriving Repr, DecidableEq

/-- The `should_append` test of `DerivativesFetcher.get_gate2_ctx`
(lines 79-86): append unless the last stored point lies in the same bucket
for the same symbol and venue. -/
def shouldAppend (series : List DerivPoint) (p : DerivPoint) : Bool :=
  match series.getLast? with
  | some lp =>
      ¬(lp.bucket_ts = p.bucket_ts ∧ lp.symbol = p.symbol ∧ lp.exchange = p.exchange)
  | none => true

/-- The append-or-replace-last step of `DerivativesFetcher.get_gate2_ctx`
(lines 77-105): if the last stored point has the same `bucket_ts`, `symbol`
and `exchange` as the incoming point, overwrite it in place; otherwise append
to the deque, evicting from the front when `maxlen` (default 72) is exceeded. -/
def updateSeries (series : List DerivPoint) (p : DerivPoint) (maxlen : Nat := 72) :
    List DerivPoint :=
  if shouldAppend series p then
    -- `collections.deque(maxlen=72)` drops the oldest element on overflow.
    let s := series ++ [p]
    if s.length > maxlen then s.drop (s.length - maxlen) else s
  else
    series.dropLast ++ [p]

/-- Sorted-insertion step realising the Python `by_bucket` dict of
`get_gate2_ctx` lines 116-121: a later point with the same `bucket_ts`
replaces the stored one, and the final extraction is by ascending bucket key
(`sorted(by_bucket.keys())`).  Inserting into a strictly-sorted list gives the
same (bucket → latest point) map read off in ascending bucket order. -/
def insPoint (p : DerivPoint) : List DerivPoint → List DerivPoint
  | [] => [p]
  | q :: rest =>
      if p.bucket_ts < q.bucket_ts then p :: q :: rest
      else if p.bucket_ts = q.bucket_ts then p :: rest
      else q :: insPoint p rest

/-- Deduplicate by `bucket_ts`, keeping the latest point per bucket, result in
ascending `bucket_ts` order (lines 114-121 of `get_gate2_ctx`). -/
def dedupByBucket (pts : List DerivPoint) : List DerivPoint :=
  pts.foldl (fun m p => insPoint p m) []

/-- The filtered, deduplicated read view `pts_sym` of `get_gate2_ctx`
(lines 107-121): filter to the exact (exchange, symbol), then dedup per
bucket. -/
def readView (series : List DerivPoint) (exchange symbol : String) : List DerivPoint :=
  dedupByBucket (series.filter fun p => p.symbol = symbol ∧ p.exchange = exchange)

/-- `src/app/data/derivatives_fetcher.py` — `Gate2DerivativesCtx`. -/
structure Gate2DerivativesCtx where
  symbol : String
  exchange : String
  last : Derivatives1H
  ts : Int
  bucket_ts : Int
  oi_delta : Option ℚ
  oi_delta_pct : Option ℚ
  oi_spike_z : Option ℚ
  funding_z : Option ℚ
  funding_mean : Option ℚ
  funding_std : Option ℚ
  ratio_dev : Option ℚ
  oi_slope_4h_pct : Option ℚ
  confirm4h : Bool
  confirm4h_reason : String
  ready : Bool
  history_len : Nat
deriving Repr, DecidableEq

/-! ## Gate 2 — derivatives regime (`src/app/gates/gate2_derivatives.py`) -/

/-- `src/app/gates/gate2_derivatives.py` — `Gate2Result`. -/
structure Gate2Result where
  passed : Bool
  reason : String
  regime : String
  directional_bias_hint : String
  confidence : String
  alert_only : Bool
  confirm4h : Bool
  confirm4h_reason : String
  ratio_skew : Option String
  funding_extreme : Bool
  oi_spike : Bool
  ratio_long_pct : Option ℚ
  funding : Option ℚ
  funding_z : Option ℚ
  oi_delta_pct : Option ℚ
  oi_spike_z : Option ℚ
  oi_slope_4h_pct : Option ℚ
deriving Repr, DecidableEq

/-- `gate2_derivatives.py` — `_ratio_skew` (lines 30-38). -/
def ratioSkew (rlp : Option ℚ) : Option String :=
  match rlp with
  | none => none
  | some x =>
      if x ≥ 65 then some "LONG"
      else if x ≤ 35 then some "SHORT"
      else none

/-- `gate2_derivatives.py` — `_directional_hint` (lines 41-51). -/
def directionalHint (regime : String) (skew : Option String) : String :=
  if regime = "healthy_trend" then "continuation_preferred"
  else if regime = "crowded_squeeze" then
    if skew = some "LONG" then "reversal_or_flush_risk"
    else if skew = some "SHORT" then "reversal_or_squeeze_up_risk"
    else "squeeze_risk"
  else "no_trade"

/-- The funding z-score used by Gate 2 (`gate2_derivatives_regime`
lines 99-119): recompute `(funding − mean) / std` from the rolling mean/std
when all three are numbers (zero when `std < 1e-8`), falling back to
`ctx.funding_z`; then clamp the result to `[-6, 6]`. -/
def gate2FundingZ (ctx : Gate2DerivativesCtx) : Option ℚ :=
  let fz :=
    match ctx.last.funding_rate, ctx.funding_mean, ctx.funding_std with
    | some f, some mu, some sd =>
        if sd ≥ ((1 : ℚ)/100000000) then some ((f - mu) / sd) else some 0
    | _, _, _ => ctx.funding_z
  match fz with
  | none => none
  | some z => some (if z > 6 then 6 else if z < -6 then -6 else z)

/-- Hard guard `hard_crowded_ratio` (lines 129-132): extreme crowd skew. -/
def hardCrowdedRatio (ctx : Gate2DerivativesCtx) : Bool :=
  match ctx.last.ratio_long_pct with
  | some rlp => rlp ≥ 70 ∨ rlp ≤ 30
  | none => false

/-- Hard guard `hard_extreme_funding` (lines 134-138): `|funding| ≥ 0.00020`. -/
def hardExtremeFunding (ctx : Gate2DerivativesCtx) : Bool :=
  match ctx.last.funding_rate with
  | some f => |f| ≥ ((2 : ℚ)/10000)
  | none => false

/-- Hard guard `hard_oi_spike` (lines 141-143): `oi_spike_z ≥ 3.0`. -/
def hardOiSpike (ctx : Gate2DerivativesCtx) : Bool :=
  match ctx.oi_spike_z with
  | some z => z ≥ 3
  | none => false

/-- `hard_hits` (line 158): number of hard guards firing. -/
def hardHits (ctx : Gate2DerivativesCtx) : Nat :=
  (if hardCrowdedRatio ctx then 1 else 0)
    + (if hardExtremeFunding ctx then 1 else 0)
    + (if hardOiSpike ctx then 1 else 0)

/-- Soft `crowded_ratio` (lines 233-236): skew `≥ 67.5` or `≤ 32.5`. -/
def softCrowdedRatio (ctx : Gate2DerivativesCtx) : Bool :=
  match ctx.last.ratio_long_pct with
  | some rlp => rlp ≥ ((135 : ℚ)/2) ∨ rlp ≤ ((65 : ℚ)/2)
  | none => false

/-- Soft `extreme_funding` (lines 238-244): `|funding_z| ≥ 2.0`, falling back
to `|funding| ≥ 0.00015` when the z-score is unavailable. -/
def softExtremeFunding (ctx : Gate2DerivativesCtx) : Bool :=
  match gate2FundingZ ctx with
  | some z => |z| ≥ 2
  | none =>
      match ctx.last.funding_rate with
      | some f => |f| ≥ ((15 : ℚ)/100000)
      | none => false

/-- Soft `oi_spike` (lines 246-248): `oi_spike_z ≥ 2.5`. -/
def softOiSpike (ctx : Gate2DerivativesCtx) : Bool :=
  match ctx.oi_spike_z with
  | some z => z ≥ ((5 : ℚ)/2)
  | none => false

/-- `squeeze_hits` (line 258). -/
def squeezeHits (ctx : Gate2DerivativesCtx) : Nat :=
  (if softCrowdedRatio ctx then 1 else 0)
    + (if softExtremeFunding ctx then 1 else 0)
    + (if softOiSpike ctx then 1 else 0)

/-- Healthy-trend bands `ratio_ok ∧ funding_ok ∧ oi_ok` (lines 295-308); each
test defaults to `True` when the corresponding statistic is unavailable. -/
def healthyOk (ctx : Gate2DerivativesCtx) : Bool :=
  let ratio_ok :=
    match ctx.last.ratio_long_pct with
    | some rlp => rlp ≤ 65 ∧ rlp ≥ 35
    | none => true
  let funding_ok :=
    match gate2FundingZ ctx with
    | some z => |z| ≤ ((3 : ℚ)/2)
    | none =>
        match ctx.last.funding_rate with
        | some f => |f| ≤ ((1 : ℚ)/10000)
        | none => true
  let oi_ok :=
    match ctx.oi_spike_z with
    | some z => z < 2
    | none => true
  ratio_ok && funding_ok && oi_ok

/-- "All three stats are numbers" test used by the confidence ladders
(lines 152-154, 252-253, 312-313). -/
def allStatsDefined (ctx : Gate2DerivativesCtx) : Bool :=
  ctx.last.ratio_long_pct.isSome && (gate2FundingZ ctx).isSome && ctx.oi_spike_z.isSome

/-- Reason string for the hard-guard path (lines 160-168). -/
def hardReason (ctx : Gate2DerivativesCtx) : String :=
  if hardOiSpike ctx ∧ (hardCrowdedRatio ctx ∨ hardExtremeFunding ctx) then "oi_spike_hard"
  else if hardExtremeFunding ctx ∧ hardCrowdedRatio ctx then "ratio_funding_hard"
  else if hardCrowdedRatio ctx then "ratio_crowded_hard"
  else "funding_extreme_hard"

/-- Reason string for the soft squeeze path (lines 260-272). -/
def softSqueezeReason (ctx : Gate2DerivativesCtx) : String :=
  if softOiSpike ctx ∧ softExtremeFunding ctx then "funding_extreme_oi_spike"
  else if softOiSpike ctx ∧ softCrowdedRatio ctx then "ratio_crowded_oi_spike"
  else if softExtremeFunding ctx ∧ softCrowdedRatio ctx then "ratio_crowded_funding_extreme"
  else if softOiSpike ctx then "oi_spike"
  else if softExtremeFunding ctx then "funding_extreme"
  else "ratio_crowded"

/-- `src/app/gates/gate2_derivatives.py` — `gate2_derivatives_regime`
(lines 92-358).  The `snapshot` argument is only read by the two ratio-skew
relaxation branches placed after the final `return` (lines 360-422); those
branches are dead code in Python (control flow leaves the function at
line 340), so they do not appear in the returned value here.  Confidence in
the hard-guard path mirrors lines 149-156 verbatim, including the
`if confirm4h and confidence != "HIGH"` no-op. -/
def gate2_derivatives_regime (_snapshot : MarketSnapshot) (ctx : Gate2DerivativesCtx) :
    Gate2Result :=
  let rlp := ctx.last.ratio_long_pct
  let funding := ctx.last.funding_rate
  let funding_z := gate2FundingZ ctx
  let skew := ratioSkew rlp
  let hardConfidence :=
    if ctx.ready then
      let c := if allStatsDefined ctx then "HIGH" else "MED"
      if ctx.confirm4h ∧ c ≠ "HIGH" then "MED" else c
    else "LOW"
  if hardHits ctx ≥ 2 then
    if ¬ctx.ready then
      { passed := false
        reason := "alert_only_" ++ hardReason ctx
        regime := "crowded_squeeze"
        directional_bias_hint := "no_trade"
        confidence := "LOW"
        alert_only := true
        confirm4h := ctx.confirm4h
        confirm4h_reason := ctx.confirm4h_reason
        ratio_skew := skew
        funding_extreme := hardExtremeFunding ctx
        oi_spike := hardOiSpike ctx
        ratio_long_pct := rlp
        funding := funding
        funding_z := funding_z
        oi_delta_pct := ctx.oi_delta_pct
        oi_spike_z := ctx.oi_spike_z
        oi_slope_4h_pct := ctx.oi_slope_4h_pct }
    else
      { passed := true
        reason := hardReason ctx
        regime := "crowded_squeeze"
        directional_bias_hint := directionalHint "crowded_squeeze" skew
        confidence := hardConfidence
        alert_only := false
        confirm4h := ctx.confirm4h
        confirm4h_reason := ctx.confirm4h_reason
        ratio_skew := skew
        funding_extreme := hardExtremeFunding ctx
        oi_spike := hardOiSpike ctx
        ratio_long_pct := rlp
        funding := funding
        funding_z := funding_z
        oi_delta_pct := ctx.oi_delta_pct
        oi_spike_z := ctx.oi_spike_z
        oi_slope_4h_pct := ctx.oi_slope_4h_pct }
  else if ¬ctx.ready then
    { passed := false
      reason := "insufficient_history_" ++ toString ctx.history_len
      regime := "neutral"
      directional_bias_hint := directionalHint "neutral" skew
      confidence := "LOW"
      alert_only := false
      confirm4h := ctx.confirm4h
      confirm4h_reason := ctx.confirm4h_reason
      ratio_skew := skew
      funding_extreme := false
      oi_spike := false
      ratio_long_pct := rlp
      funding := funding
      funding_z := funding_z
      oi_delta_pct := ctx.oi_delta_pct
      oi_spike_z := ctx.oi_spike_z
      oi_slope_4h_pct := ctx.oi_slope_4h_pct }
  else if squeezeHits ctx ≥ 2 ∧ (ctx.confirm4h ∨ squeezeHits ctx = 3) then
    let c0 := if allStatsDefined ctx then "HIGH" else "MED"
    let c := if ¬ctx.confirm4h ∧ c0 = "HIGH" then "MED" else c0
    { passed := true
      reason := softSqueezeReason ctx
      regime := "crowded_squeeze"
      directional_bias_hint := directionalHint "crowded_squeeze" skew
      confidence := c
      alert_only := false
      confirm4h := ctx.confirm4h
      confirm4h_reason := ctx.confirm4h_reason
      ratio_skew := skew
      funding_extreme := softExtremeFunding ctx
      oi_spike := softOiSpike ctx
      ratio_long_pct := rlp
      funding := funding
      funding_z := funding_z
      oi_delta_pct := ctx.oi_delta_pct
      oi_spike_z := ctx.oi_spike_z
      oi_slope_4h_pct := ctx.oi_slope_4h_pct }
  else if healthyOk ctx then
    { passed := true
      reason := "pass"
      regime := "healthy_trend"
      directional_bias_hint := directionalHint "healthy_trend" skew
      confidence := if allStatsDefined ctx then "HIGH" else "MED"
      alert_only := false
      confirm4h := ctx.confirm4h
      confirm4h_reason := ctx.confirm4h_reason
      ratio_skew := skew
      funding_extreme := false
      oi_spike := false
      ratio_long_pct := rlp
      funding := funding
      funding_z := funding_z
      oi_delta_pct := ctx.oi_delta_pct
      oi_spike_z := ctx.oi_spike_z
      oi_slope_4h_pct := ctx.oi_slope_4h_pct }
  else
    { passed := false
      reason := "neutral"
      regime := "neutral"
      directional_bias_hint := directionalHint "neutral" skew
      confidence := if ctx.ready then "MED" else "LOW"
      alert_only := false
      confirm4h := ctx.confirm4h
      confirm4h_reason := ctx.confirm4h_reason
      ratio_skew := skew
      funding_extreme := softExtremeFunding ctx
      oi_spike := softOiSpike ctx
      ratio_long_pct := rlp
      funding := funding
      funding_z := funding_z
      oi_delta_pct := ctx.oi_delta_pct
      oi_spike_z := ctx.oi_spike_z
      oi_slope_4h_pct := ctx.oi_slope_4h_pct }

/-- The reason tags that only the two dead ratio-skew relaxation branches
(`gate2_derivatives.py` lines 360-422) could produce. -/
def relaxationReasons : List String :=
  ["ratio_skew_oi_slope_disp", "ratio_skew_oi_slope", "ratio_skew_disp_1h",
   "alert_only_ratio_skew_unconfirmed"]

/-! ## HTF bias (`src/app/smc/htf_bias.py`) -/

/-- `src/app/smc/htf_bias.py` — `HTFBias`. -/
structure HTFBias where
  bias : String
  location : String
  pos_pct : ℚ
  range_high : ℚ
  range_low : ℚ
  ema20 : Option ℚ
  ema50 : Option ℚ
  ema50_slope : Option ℚ
deriving Repr, DecidableEq

/-- EMA update step with smoothing `k = 2/(period+1)`. -/
def emaStep (k : ℚ) (e v : ℚ) : ℚ := v * k + e * (1 - k)

/-- `htf_bias.py` — `_ema` (lines 17-24): seeded with the first value, folded
over the rest; `None` when fewer than `period` values. -/
def ema (values : List ℚ) (period : Nat) : Option ℚ :=
  if values.length < period then none
  else
    match values with
    | [] => none  -- only reachable for period = 0, where Python raises
    | v0 :: rest => some (rest.foldl (emaStep (2 / (period + 1))) v0)

/-- `htf_bias.py` — `_ema_series` (lines 26-37): the running EMA values after
each update (the seed itself is not stored), truncated to the last `last_n`;
empty when fewer than `period + last_n` values. -/
def emaSeriesTail (values : List ℚ) (period lastN : Nat) : List ℚ :=
  if values.length < period + lastN then []
  else
    match values with
    | [] => []
    | v0 :: rest => sliceLast ((rest.scanl (emaStep (2 / (period + 1))) v0).drop 1) lastN

/-- Running EMA values after each update, with no length guard (used to state
what `_ema_series` returns). -/
def emaRunning (values : List ℚ) (period : Nat) : List ℚ :=
  match values with
  | [] => []
  | v0 :: rest => (rest.scanl (emaStep (2 / (period + 1))) v0).drop 1

/-- `src/app/smc/htf_bias.py` — `compute_htf_bias` (lines 39-90). -/
def compute_htf_bias (candles_4h : List Candle) (window : Nat := 60) : Option HTFBias :=
  if candles_4h.length < max 80 window then none
  else
    match sliceLast candles_4h window with
    | [] => none  -- unreachable: the slice of a list of length ≥ 80 is nonempty
    | r0 :: rs =>
      let closes := (r0 :: rs).map Candle.c
      let rh := rs.foldl (fun a c => max a c.h) r0.h
      let rl := rs.foldl (fun a c => min a c.l) r0.l
      let last_close := (rs.getLastD r0).c
      let rng := rh - rl
      if rng ≤ 0 then none
      else
        let pos := (last_close - rl) / rng
        let loc :=
          if pos ≤ ((3 : ℚ)/10) then "discount"
          else if pos ≥ ((7 : ℚ)/10) then "premium"
          else "mid"
        let e20 := ema (sliceLast closes 80) 20
        let e50 := ema (sliceLast closes 80) 50
        let tail50 := emaSeriesTail (sliceLast closes 120) 50 3
        let slope :=
          if tail50.length ≥ 2 then some (tail50.getLastD 0 - tail50.headD 0) else none
        let bias :=
          match e20, e50, slope with
          | some a, some b, some s =>
              if a > b ∧ s > 0 then "up"
              else if a < b ∧ s < 0 then "down"
              else "range"
          | _, _, _ => "range"
        some { bias := bias, location := loc, pos_pct := pos, range_high := rh,
               range_low := rl, ema20 := e20, ema50 := e50, ema50_slope := slope }

/-! ## Liquidity targets (`src/app/smc/liquidity.py`) -/

/-- `src/app/smc/liquidity.py` — `LiquidityTargets`. -/
structure LiquidityTargets where
  above : Option ℚ
  below : Option ℚ
  swing_highs : List ℚ
  swing_lows : List ℚ
deriving Repr, DecidableEq

/-- `liquidity.py` — `_pivots` specialised to `left = right = 2` (the only
call).  A pivot high at index `i` is strictly above the two previous highs and
at least the two following highs; symmetrically (with strict before, weak
after) for lows.  The recursion slides the 5-candle window one step at a
time. -/
def pivots5 : List Candle → List ℚ × List ℚ
  | c1 :: c2 :: c3 :: c4 :: c5 :: rest =>
      let (hs, ls) := pivots5 (c2 :: c3 :: c4 :: c5 :: rest)
      let hs' :=
        if c3.h > c1.h ∧ c3.h > c2.h ∧ c3.h ≥ c4.h ∧ c3.h ≥ c5.h then c3.h :: hs else hs
      let ls' :=
        if c3.l < c1.l ∧ c3.l < c2.l ∧ c3.l ≤ c4.l ∧ c3.l ≤ c5.l then c3.l :: ls else ls
      (hs', ls')
  | _ => ([], [])

/-- `src/app/smc/liquidity.py` — `compute_liquidity_targets` (lines 25-48).
Reading `recent[-1]` of an empty list raises in Python; the embedding returns
`0` there (unreachable from `gate1_htf_clarity`, which only calls this after
`compute_htf_bias` succeeded on ≥ 80 candles). -/
def compute_liquidity_targets (candles_4h : List Candle) (lookback : Nat := 80) :
    LiquidityTargets :=
  let recent := if candles_4h.length ≥ lookback then sliceLast candles_4h lookback
                else candles_4h
  let (swing_highs, swing_lows) := pivots5 recent
  let last_price := ((recent.getLast?).map Candle.c).getD 0
  let above := (insSort (fun a b => a ≤ b) swing_highs).find? (fun h => h > last_price)
  let below := ((insSort (fun a b => a ≤ b) swing_lows).reverse).find? (fun l => l < last_price)
  { above := above, below := below,
    swing_highs := sliceLast swing_highs 10, swing_lows := sliceLast swing_lows 10 }

/-! ## Gate 1 — HTF clarity (`src/app/gates/gate1_htf.py`) -/

/-- `src/app/gates/gate1_htf.py` — `Gate1Result`. -/
structure Gate1Result where
  passed : Bool
  reason : String
  htf : Option HTFBias
  liq : Option LiquidityTargets
deriving Repr, DecidableEq

/-- The per-tier spread cap and tag of `gate1_htf_clarity` (lines 40-57),
keyed by the upper-cased symbol: `(max_sp, tag)`. -/
def spreadTier (sym : String) : ℚ × String :=
  let s := strUpper sym
  if s = "BTCUSDT" ∨ s = "ETHUSDT" then (((2 : ℚ)/100), "core")
  else if s = "BNBUSDT" ∨ s = "SOLUSDT" then (((6 : ℚ)/100), "major")
  else if s = "ARBUSDT" ∨ s = "NEARUSDT" then (((25 : ℚ)/100), "alt_low_price")
  else (((15 : ℚ)/100), "alt")

/-- `src/app/gates/gate1_htf.py` — `gate1_htf_clarity` (lines 30-88). -/
def gate1_htf_clarity (snapshot : MarketSnapshot) : Gate1Result :=
  match compute_htf_bias snapshot.candles_4h 60 with
  | none => { passed := false, reason := "insufficient_4h_candles", htf := none, liq := none }
  | some htf =>
    let liq := compute_liquidity_targets snapshot.candles_4h 80
    let spreadReject : Option Gate1Result :=
      match snapshot.spread_pct with
      | none => none
      | some sp =>
          let tier := spreadTier snapshot.symbol
          if sp > tier.1 then
            some { passed := false, reason := "spread_too_wide_" ++ tier.2,
                   htf := some htf, liq := some liq }
          else none
    match spreadReject with
    | some r => r
    | none =>
      let pos := htf.pos_pct
      if htf.bias = "range" ∧ ¬(pos ≤ ((3 : ℚ)/10) ∨ pos ≥ ((7 : ℚ)/10)) then
        { passed := false, reason := "mid_range_4h_range_regime",
          htf := some htf, liq := some liq }
      else if htf.bias ≠ "range" ∧ (((42 : ℚ)/100) < pos ∧ pos < ((58 : ℚ)/100)) then
        { passed := false, reason := "mid_range_4h_trend_dead_mid",
          htf := some htf, liq := some liq }
      else
        let clarity_ok :=
          htf.bias = "up" ∨ htf.bias = "down" ∨
            (htf.bias = "range" ∧ (htf.location = "discount" ∨ htf.location = "premium"))
        if ¬clarity_ok then
          { passed := false, reason := "no_clarity", htf := some htf, liq := some liq }
        else if liq.above = none ∧ liq.below = none then
          { passed := false, reason := "no_liquidity_target",
            htf := some htf, liq := some liq }
        else
          { passed := true, reason := "pass", htf := some htf, liq := some liq }

/-! ## 15m FVG zones (`src/app/smc/zones.py`) -/

/-- `src/app/smc/zones.py` — `Zone`. -/
structure Zone where
  kind : String
  tf : String
  top : ℚ
  bottom : ℚ
  created_ts : Int
  touched : Bool
  fill_pct : ℚ
  score : ℚ
  reason : String
deriving Repr, DecidableEq

/-- `zones.py` — `_clamp01` (lines 22-27). -/
def clamp01 (x : ℚ) : ℚ := if x < 0 then 0 else if x > 1 then 1 else x

/-- The candles at or after a zone's creation timestamp (`_zone_from_gap`
line 80). -/
def postCandles (candles : List Candle) (created_ts : Int) : List Candle :=
  candles.filter fun x => x.ts ≥ created_ts

/-- The `(touched, fill_pct)` computation of `_zone_from_gap` (lines 84-99):
touch and fill depth of the zone over the post-creation candles. -/
def zoneTouchFill (kind : String) (top bottom height : ℚ) (post : List Candle) :
    Bool × ℚ :=
  match post with
  | [] => (false, 0)  -- unreachable from `_zone_from_gap`: `post` has ≥ 3 elements
  | q :: qs =>
    if kind = "FVG_BULL" then
      let min_low := qs.foldl (fun a x => min a x.l) q.l
      if min_low ≤ top then (true, clamp01 ((top - max min_low bottom) / height))
      else (false, 0)
    else
      let max_high := qs.foldl (fun a x => max a x.h) q.h
      if max_high ≥ bottom then (true, clamp01 ((min max_high top - bottom) / height))
      else (false, 0)

/-- The reason tag of `_zone_from_gap` (line 106). -/
def zoneReason (touched : Bool) (fill_pct : ℚ) : String :=
  if ¬touched then "fresh"
  else if fill_pct ≤ ((33 : ℚ)/100) then "light_fill"
  else if fill_pct ≤ ((66 : ℚ)/100) then "mid_fill"
  else "deep_fill"

/-- `src/app/smc/zones.py` — `_zone_from_gap` (lines 66-117): normalise the
edges, collect the candles at or after `created_ts`, and derive touch / fill
depth / score. -/
def zone_from_gap (kind : String) (top0 bottom0 : ℚ) (candles : List Candle)
    (created_ts : Int) : Zone :=
  let tb := if top0 < bottom0 then (bottom0, top0) else (top0, bottom0)
  let top := tb.1
  let bottom := tb.2
  let post := postCandles candles created_ts
  if post.length < 3 then
    { kind := kind, tf := "15m", top := top, bottom := bottom, created_ts := created_ts,
      touched := false, fill_pct := 0, score := 0, reason := "too_few_post_candles" }
  else
    let height := max ((1 : ℚ)/1000000000000) (top - bottom)
    let tfp := zoneTouchFill kind top bottom height post
    let touched := tfp.1
    let fill_pct := tfp.2
    let score := (1 - fill_pct) + ((1 : ℚ)/10)
    let reason := zoneReason touched fill_pct
    { kind := kind, tf := "15m", top := top, bottom := bottom, created_ts := created_ts,
      touched := touched, fill_pct := fill_pct, score := score, reason := reason }

/-- Sliding window of consecutive candle triples `(c[i-1], c[i], c[i+1])`,
realising the index loop `for i in range(1, len(c) - 1)` of `find_fvg_15m`. -/
def tripleScan : List Candle → List (Candle × Candle × Candle)
  | a :: b :: d :: rest => (a, b, d) :: tripleScan (b :: d :: rest)
  | _ => []

/-- Descending lexicographic (score, created_ts) order used by
`zones.sort(key=lambda z: (z.score, z.created_ts), reverse=True)`. -/
def zoneKeyGE (z1 z2 : Zone) : Bool :=
  z2.score < z1.score ∨ (z1.score = z2.score ∧ z2.created_ts ≤ z1.created_ts)

/-- `src/app/smc/zones.py` — `find_fvg_15m` (lines 30-63). -/
def find_fvg_15m (candles_15m : List Candle) (lookback : Nat := 120) : List Zone :=
  if candles_15m.length < 10 then []
  else
    let c := if candles_15m.length > lookback then sliceLast candles_15m lookback
             else candles_15m
    let zones :=
      (tripleScan c).flatMap fun t =>
        let a := t.1
        let b := t.2.1
        let d := t.2.2
        (if a.h < d.l then [zone_from_gap "FVG_BULL" d.l a.h c b.ts] else []) ++
        (if a.l > d.h then [zone_from_gap "FVG_BEAR" a.l d.h c b.ts] else [])
    insSort zoneKeyGE zones

/-! ## 1H structure and Gate 3 result types
(`src/app/smc/structure_1h.py`, `src/app/gates/gate3_structure.py`) -/

/-- `src/app/smc/structure_1h.py` — `SwingPoint`. -/
structure SwingPoint where
  ts : Int
  price : ℚ
  kind : String
deriving Repr, DecidableEq

/-- `src/app/smc/structure_1h.py` — `Structure1HResult`. -/
structure Structure1HResult where
  trend : String
  last_swing_high : Option SwingPoint
  last_swing_low : Option SwingPoint
  bos : Bool
  choch : Bool
  break_level : Option ℚ
  reason : String
deriving Repr, DecidableEq

/-- `src/app/gates/gate3_structure.py` — `Gate3Result`. -/
structure Gate3Result where
  passed : Bool
  reason : String
  structure1h : Structure1HResult
  zone : Option Zone
  tp2_candidate : Option ℚ
  notes : List (String × String)
  intent : Option String := none
deriving Repr, DecidableEq

/-! ## Planner (`src/app/signals/planner.py`) -/

/-- `src/app/signals/planner.py` — `TPLevel`. -/
structure TPLevel where
  name : String
  price : ℚ
  reason : String
deriving Repr, DecidableEq

/-- The `meta` dictionary assembled by `build_plan_v0` (lines 320-336),
modelled with its actual value types. -/
structure PlanMeta where
  g2_regime : String
  g2_hint : String
  g2_conf : String
  zone_kind : String
  zone_fill_pct : ℚ
  zone_score : ℚ
  zone_top : ℚ
  zone_bot : ℚ
  zone_mid : ℚ
  mark : ℚ
  atr15 : Option ℚ
  coin_group : String
  min_rr_tp2 : ℚ
  rr_ok_entry1 : Bool
  rr_ok_entry2 : Bool
deriving Repr, DecidableEq

/-- `src/app/signals/planner.py` — `TradePlan`. -/
structure TradePlan where
  symbol : String
  exchange : Option String
  intent : String
  entry1 : ℚ
  entry2 : Option ℚ
  sl : ℚ
  sl_reason : String
  tps : List TPLevel
  rr_tp2 : Option ℚ
  rr_tp2_entry2 : Option ℚ
  risk_per_unit : ℚ
  leeway_price : ℚ
  leeway_reason : String
  meta : PlanMeta
deriving Repr, DecidableEq

/-- `planner.py` — `_mark` (lines 65-73): the first of
`mark_price`/`mark`/`last_price` that is a positive number (only `mark_price`
exists on `MarketSnapshot`), falling back to the last 15m close. -/
def markOf (snapshot : MarketSnapshot) : Option ℚ :=
  match snapshot.mark_price with
  | some v => if v > 0 then some v else (snapshot.candles_15m.getLast?).map Candle.c
  | none => (snapshot.candles_15m.getLast?).map Candle.c

/-- `planner.py` — `_atr` (lines 76-85) (same body as `_atr` in
`gate2_derivatives.py`): mean true range over the last `n` bars, requiring at
least `n + 2` candles. -/
def atr (candles : List Candle) (n : Nat := 14) : Option ℚ :=
  if candles.length < n + 2 then none
  else
    let tail := sliceLast candles (n + 1)
    let trs := (tail.zip tail.tail).map fun pc =>
      max (pc.2.h - pc.2.l) (max |pc.2.h - pc.1.c| |pc.2.l - pc.1.c|)
    if trs.isEmpty then none else some (trs.sum / trs.length)

/-- `planner.py` — `_rr` (lines 88-93): `|tp − entry| / |entry − sl|`, `None`
when the risk is ≤ 1e-12. -/
def rr (entry sl tp : ℚ) : Option ℚ :=
  let r := |entry - sl|
  if r ≤ ((1 : ℚ)/1000000000000) then none else some (|tp - entry| / r)

/-- `planner.py` — `_norm_zone` (lines 95-101): `(top, bottom, mid)` with the
edges swapped into order. -/
def normZone (zone : Zone) : ℚ × ℚ × ℚ :=
  let tb := if zone.top < zone.bottom then (zone.bottom, zone.top)
            else (zone.top, zone.bottom)
  (tb.1, tb.2, (tb.1 + tb.2) / 2)

/-- `planner.py` — `_coin_group` (lines 104-118). -/
def coinGroup (symbol : String) : String :=
  let s := strUpper symbol
  if s = "BTCUSDT" ∨ s = "ETHUSDT" then "core"
  else if s = "BNBUSDT" ∨ s = "SOLUSDT" then "major"
  else if s = "ARBUSDT" ∨ s = "NEARUSDT" then "alt_low_price"
  else "alt"

/-- `planner.py` — `_leeway_from_atr` (lines 121-149): ATR(15m)-scaled leeway
with a mark-price basis-point fallback.  The multiplier strings mirror the
Python `f"atr15_mult_{mult:.2f}"` / `f"fallback_{fb_bps:.1f}bps"` formats. -/
def leewayFromAtr (snapshot : MarketSnapshot) : ℚ × String :=
  let m := (markOf snapshot).getD 0
  let g := coinGroup snapshot.symbol
  let atr15 := atr snapshot.candles_15m 14
  let (mult, fb_bps, multTag, fbTag) : ℚ × ℚ × String × String :=
    if g = "core" then (((10 : ℚ)/100), 3, "atr15_mult_0.10", "fallback_3.0bps")
    else if g = "major" then (((14 : ℚ)/100), 5, "atr15_mult_0.14", "fallback_5.0bps")
    else if g = "alt_low_price" then (((22 : ℚ)/100), 12, "atr15_mult_0.22", "fallback_12.0bps")
    else (((18 : ℚ)/100), 10, "atr15_mult_0.18", "fallback_10.0bps")
  match atr15 with
  | some a =>
      if a > 0 then (a * mult, multTag)
      else (if m > 0 then m * (fb_bps / 10000) else 0, fbTag)
  | none => (if m > 0 then m * (fb_bps / 10000) else 0, fbTag)

/-- `planner.py` — `_next_liq_levels` (lines 152-173): the first `k` distinct
levels strictly beyond `ref` in the intent direction, scanned in sorted order
(ascending for LONG, descending for SHORT). -/
def nextLiqLevels (levels : List ℚ) (ref : ℚ) (intent : String) (k : Nat := 3) : List ℚ :=
  let lv := (insSort (fun a b => a ≤ b) levels).dedup
  if intent = "LONG" then (lv.filter (fun x => x > ref)).take k
  else ((lv.reverse).filter (fun x => x < ref)).take k

/-- The `while len(tps) < 5` R-multiple padding loop of `build_plan_v0`
(lines 299-303); `fuel` bounds the iterations (5 always suffices). -/
def padTPs (fuel : Nat) (entry1 risk : ℚ) (intent : String) (tps : List TPLevel) :
    List TPLevel :=
  match fuel with
  | 0 => tps
  | fuel' + 1 =>
    if tps.length < 5 then
      let k := tps.length
      let mult : ℚ := 2 + (k - 2 : Nat)
      let px := if intent = "LONG" then entry1 + mult * risk else entry1 - mult * risk
      -- Python renders the reason as f"fallback_{mult:.1f}R"; the reachable
      -- multipliers are the integers 2, 3, 4, printed with one decimal.
      padTPs fuel' entry1 risk intent
        (tps ++ [⟨"TP" ++ toString (k + 1), px, "fallback_" ++ toString (2 + (k - 2)) ++ ".0R"⟩])
    else tps

/-- The planner intent string: `str(getattr(g3, "intent", "") or "")`
(`build_plan_v0` line 204). -/
def planIntent (g3 : Gate3Result) : String := g3.intent.getD ""

/-- Entry1 = zone mid (`build_plan_v0` line 220). -/
def planEntry1 (zone : Zone) : ℚ := (normZone zone).2.2

/-- Entry2 = deeper zone edge: bottom for LONG, top for SHORT
(`build_plan_v0` line 222). -/
def planEntry2 (zone : Zone) (intent : String) : ℚ :=
  if intent = "LONG" then (normZone zone).2.1 else (normZone zone).1

/-- The SL padding `max(zone_height·mult, ATR15·mult, 1e-12)`
(`build_plan_v0` lines 225-229). -/
def planPad (zone : Zone) (cs15 : List Candle) (sl_pad_zone_mult sl_pad_atr_mult : ℚ) : ℚ :=
  let top := (normZone zone).1
  let bot := (normZone zone).2.1
  let pad_zone := |top - bot| * sl_pad_zone_mult
  let pad_atr :=
    match atr cs15 14 with
    | some a => if a > 0 then a * sl_pad_atr_mult else 0
    | none => 0
  max pad_zone (max pad_atr ((1 : ℚ)/1000000000000))

/-- The stop loss: beyond the opposite zone edge plus padding
(`build_plan_v0` lines 230-235). -/
def planSl (zone : Zone) (intent : String) (cs15 : List Candle)
    (sl_pad_zone_mult sl_pad_atr_mult : ℚ) : ℚ :=
  if intent = "LONG" then (normZone zone).2.1 - planPad zone cs15 sl_pad_zone_mult sl_pad_atr_mult
  else (normZone zone).1 + planPad zone cs15 sl_pad_zone_mult sl_pad_atr_mult

/-- `risk_per_unit = |entry1 − sl|` (`build_plan_v0` line 237). -/
def planRisk (zone : Zone) (intent : String) (cs15 : List Candle)
    (sl_pad_zone_mult sl_pad_atr_mult : ℚ) : ℚ :=
  |planEntry1 zone - planSl zone intent cs15 sl_pad_zone_mult sl_pad_atr_mult|

/-- TP1 selection with its reason: 1H swing, break level, 1R fallback, and
the monotonicity adjustment against TP2 (`build_plan_v0` lines 241-279). -/
def planTp1 (g3 : Gate3Result) (zone : Zone) (intent : String) (tp2 : ℚ)
    (cs15 : List Candle) (pz pa : ℚ) : ℚ × String :=
  let entry1 := planEntry1 zone
  let risk := planRisk zone intent cs15 pz pa
  let struct := g3.structure1h
  let tp1a : Option (ℚ × String) :=
    if intent = "LONG" then
      match struct.last_swing_high with
      | some sw => if sw.price > entry1 then some (sw.price, "1h_last_swing_high") else none
      | none => none
    else
      match struct.last_swing_low with
      | some sw => if sw.price < entry1 then some (sw.price, "1h_last_swing_low") else none
      | none => none
  let tp1b : Option (ℚ × String) :=
    match tp1a with
    | some v => some v
    | none =>
      match struct.break_level with
      | some brk =>
          if (intent = "LONG" ∧ brk > entry1) ∨ (intent = "SHORT" ∧ brk < entry1)
          then some (brk, "1h_break_level") else none
      | none => none
  let tp1c : ℚ × String :=
    match tp1b with
    | some v => v
    | none =>
        (if intent = "LONG" then entry1 + risk else entry1 - risk, "fallback_1R")
  let tp1d : ℚ × String :=
    if intent = "LONG" ∧ ¬(tp1c.1 < tp2) then
      (entry1 + risk, "adjust_tp1_to_1R_for_monotonic")
    else tp1c
  if intent = "SHORT" ∧ ¬(tp1d.1 > tp2) then
    (entry1 - risk, "adjust_tp1_to_1R_for_monotonic")
  else tp1d

/-- The 5-level take-profit ladder: TP1, TP2 candidate, the 4H liquidity
ladder beyond TP2, padded with R-multiples and truncated to 5
(`build_plan_v0` lines 281-303 and the final `tps[:5]`). -/
def planTps (g1 : Gate1Result) (g3 : Gate3Result) (zone : Zone) (intent : String)
    (tp2 : ℚ) (cs15 : List Candle) (pz pa : ℚ) : List TPLevel :=
  let entry1 := planEntry1 zone
  let risk := planRisk zone intent cs15 pz pa
  let tp1e := planTp1 g3 zone intent tp2 cs15 pz pa
  let swing_highs := (g1.liq.map LiquidityTargets.swing_highs).getD []
  let swing_lows := (g1.liq.map LiquidityTargets.swing_lows).getD []
  let ladder_src := if intent = "LONG" then swing_highs else swing_lows
  let next_lv := nextLiqLevels ladder_src tp2 intent 3
  let tps0 : List TPLevel :=
    [⟨"TP1", tp1e.1, tp1e.2⟩, ⟨"TP2", tp2, "gate1_liq_or_struct_fallback"⟩] ++
      (next_lv.enumFrom 3).map fun li => ⟨"TP" ++ toString li.1, li.2, "4h_swing_liq_ladder"⟩
  (padTPs 5 entry1 risk intent tps0).take 5

/-- The RR acceptance test `rr is not None and rr >= min_rr_tp2`
(`build_plan_v0` lines 311-312). -/
def rrOk (x : Option ℚ) (min_rr_tp2 : ℚ) : Bool :=
  match x with
  | some v => v ≥ min_rr_tp2
  | none => false

/-- The SL reason strings of `build_plan_v0` lines 232 and 235 (the Python
f-string renders the default multipliers 0.15 and 0.25). -/
def planSlReason (intent : String) : String :=
  if intent = "LONG" then "below_zone_bot_pad=max(zone*0.15,atr15*0.25)"
  else "above_zone_top_pad=max(zone*0.15,atr15*0.25)"

/-- The `meta` dictionary (`build_plan_v0` lines 320-336). -/
def planMeta (snapshot : MarketSnapshot) (g2 : Gate2Result) (zone : Zone) (m : ℚ)
    (min_rr_tp2 : ℚ) (rr1 rr2 : Bool) : PlanMeta :=
  { g2_regime := g2.regime
    g2_hint := g2.directional_bias_hint
    g2_conf := g2.confidence
    zone_kind := zone.kind
    zone_fill_pct := zone.fill_pct
    zone_score := zone.score
    zone_top := (normZone zone).1
    zone_bot := (normZone zone).2.1
    zone_mid := (normZone zone).2.2
    mark := m
    atr15 := atr snapshot.candles_15m 14
    coin_group := coinGroup snapshot.symbol
    min_rr_tp2 := min_rr_tp2
    rr_ok_entry1 := rr1
    rr_ok_entry2 := rr2 }

/-- `src/app/signals/planner.py` — `build_plan_v0` (lines 180-353), assembled
from the named pieces above in source order: the fail-closed guards, then the
plan record. -/
def build_plan_v0 (snapshot : MarketSnapshot) (g1 : Gate1Result) (g2 : Gate2Result)
    (g3 : Gate3Result) (min_rr_tp2 : ℚ := (5 : ℚ)/2) (sl_pad_zone_mult : ℚ := (15 : ℚ)/100)
    (sl_pad_atr_mult : ℚ := (25 : ℚ)/100) : Option TradePlan :=
  if ¬g3.passed then none
  else if ¬(planIntent g3 = "LONG" ∨ planIntent g3 = "SHORT") then none
  else
    match g3.zone, g3.tp2_candidate with
    | none, _ => none
    | _, none => none
    | some zone, some tp2 =>
      match markOf snapshot with
      | none => none
      | some m =>
        if m ≤ 0 then none
        else if planRisk zone (planIntent g3) snapshot.candles_15m sl_pad_zone_mult
            sl_pad_atr_mult ≤ (1 : ℚ)/1000000000000 then none
        else if ¬(rrOk (rr (planEntry1 zone)
                (planSl zone (planIntent g3) snapshot.candles_15m sl_pad_zone_mult
                  sl_pad_atr_mult) tp2) min_rr_tp2
            || rrOk (rr (planEntry2 zone (planIntent g3))
                (planSl zone (planIntent g3) snapshot.candles_15m sl_pad_zone_mult
                  sl_pad_atr_mult) tp2) min_rr_tp2) then none
        else
          some
            { symbol := snapshot.symbol
              exchange := (snapshot.deriv_1h.meta.find? (fun kv => kv.1 = "exchange")).map
                Prod.snd
              intent := planIntent g3
              entry1 := planEntry1 zone
              entry2 := some (planEntry2 zone (planIntent g3))
              sl := planSl zone (planIntent g3) snapshot.candles_15m sl_pad_zone_mult
                sl_pad_atr_mult
              sl_reason := planSlReason (planIntent g3)
              tps := planTps g1 g3 zone (planIntent g3) tp2 snapshot.candles_15m
                sl_pad_zone_mult sl_pad_atr_mult
              rr_tp2 := rr (planEntry1 zone)
                (planSl zone (planIntent g3) snapshot.candles_15m sl_pad_zone_mult
                  sl_pad_atr_mult) tp2
              rr_tp2_entry2 := rr (planEntry2 zone (planIntent g3))
                (planSl zone (planIntent g3) snapshot.candles_15m sl_pad_zone_mult
                  sl_pad_atr_mult) tp2
              risk_per_unit := planRisk zone (planIntent g3) snapshot.candles_15m
                sl_pad_zone_mult sl_pad_atr_mult
              leeway_price := (leewayFromAtr snapshot).1
              leeway_reason := (leewayFromAtr snapshot).2
              meta := planMeta snapshot g2 zone m min_rr_tp2
                (rrOk (rr (planEntry1 zone)
                  (planSl zone (planIntent g3) snapshot.candles_15m sl_pad_zone_mult
                    sl_pad_atr_mult) tp2) min_rr_tp2)
                (rrOk (rr (planEntry2 zone (planIntent g3))
                  (planSl zone (planIntent g3) snapshot.candles_15m sl_pad_zone_mult
                    sl_pad_atr_mult) tp2) min_rr_tp2) }

/-! ## Concrete evaluation inputs

Fixed inputs used by the counterexamples and by the witnesses of the
universally quantified theorems below. -/

/-- A `Derivatives1H` with no data. -/
def derivNone : Derivatives1H :=
  { funding_rate := none, open_interest := none, long_short_ratio := none,
    ratio_long_pct := none, meta := [] }

/-- A snapshot with no candles, mark 105. -/
def snapMark105 : MarketSnapshot :=
  { symbol := "XUSDT", candles_15m := [], candles_1h := [], candles_4h := [],
    deriv_1h := derivNone, mark_price := some 105 }

/-- A snapshot with no candles, mark 50 (used to show the planner never
compares entries with the mark price). -/
def snapMark50 : MarketSnapshot :=
  { symbol := "XUSDT", candles_15m := [], candles_1h := [], candles_4h := [],
    deriv_1h := derivNone, mark_price := some 50 }

/-- Gate1 result carrying no liquidity (the planner treats missing `liq` as
empty swing lists). -/
def g1Empty : Gate1Result :=
  { passed := true, reason := "pass", htf := none, liq := none }

/-- A neutral Gate2 result (only echoed into the plan metadata). -/
def g2Neutral : Gate2Result :=
  { passed := false, reason := "neutral", regime := "neutral",
    directional_bias_hint := "no_trade", confidence := "LOW", alert_only := false,
    confirm4h := false, confirm4h_reason := "na", ratio_skew := none,
    funding_extreme := false, oi_spike := false, ratio_long_pct := none,
    funding := none, funding_z := none, oi_delta_pct := none, oi_spike_z := none,
    oi_slope_4h_pct := none }

/-- A 1H structure result with no swings and no break level. -/
def structEmpty : Structure1HResult :=
  { trend := "unknown", last_swing_high := none, last_swing_low := none,
    bos := false, choch := false, break_level := none, reason := "na" }

/-- Bullish FVG zone [100, 110]. -/
def zone100110 : Zone :=
  { kind := "FVG_BULL", tf := "15m", top := 110, bottom := 100, created_ts := 0,
    touched := false, fill_pct := 0, score := ((11 : ℚ)/10), reason := "fresh" }

/-- A passing LONG Gate3 candidate on `zone100110` with TP2 candidate 122. -/
def g3Long122 : Gate3Result :=
  { passed := true, reason := "ok", structure1h := structEmpty,
    zone := some zone100110, tp2_candidate := some 122, notes := [],
    intent := some "LONG" }

/-- Fallback plan used to destructure planner outputs in closed statements. -/
def planDefault : TradePlan :=
  { symbol := "", exchange := none, intent := "", entry1 := 0, entry2 := none,
    sl := 0, sl_reason := "", tps := [], rr_tp2 := none, rr_tp2_entry2 := none,
    risk_per_unit := 0, leeway_price := 0, leeway_reason := "",
    meta := { g2_regime := "", g2_hint := "", g2_conf := "", zone_kind := "",
              zone_fill_pct := 0, zone_score := 0, zone_top := 0, zone_bot := 0,
              zone_mid := 0, mark := 0, atr15 := none, coin_group := "",
              min_rr_tp2 := 0, rr_ok_entry1 := false, rr_ok_entry2 := false } }

/-- Fallback bias record used to destructure `compute_htf_bias` outputs in
closed statements. -/
def htfDefault : HTFBias :=
  { bias := "range", location := "mid", pos_pct := 0, range_high := 0, range_low := 0,
    ema20 := none, ema50 := none, ema50_slope := none }

/-- Ready derivatives context with two hard guards firing (ratio 72,
funding 0.0003) and all three stats defined, without 4H confirmation. -/
def ctxHardReady : Gate2DerivativesCtx :=
  { symbol := "XUSDT", exchange := "binance",
    last := { funding_rate := some ((3 : ℚ)/10000), open_interest := none,
              long_short_ratio := none, ratio_long_pct := some 72, meta := [] },
    ts := 0, bucket_ts := 0, oi_delta := none, oi_delta_pct := none,
    oi_spike_z := some 1, funding_z := some 1, funding_mean := some 0,
    funding_std := some ((1 : ℚ)/10000), ratio_dev := some 22, oi_slope_4h_pct := none,
    confirm4h := false, confirm4h_reason := "na", ready := true, history_len := 20 }

/-- The same observation with a rolling history that is not ready yet. -/
def ctxHardNotReady : Gate2DerivativesCtx :=
  { ctxHardReady with ready := false, history_len := 3 }

/-- Ready context with no hard guards, no soft squeeze, and an OI spike
z-score of 2.5 that breaks the healthy-trend band (neutral outcome). -/
def ctxNeutral : Gate2DerivativesCtx :=
  { symbol := "XUSDT", exchange := "binance", last := derivNone,
    ts := 0, bucket_ts := 0, oi_delta := none, oi_delta_pct := none,
    oi_spike_z := some ((5 : ℚ)/2), funding_z := none, funding_mean := none,
    funding_std := none, ratio_dev := none, oi_slope_4h_pct := none,
    confirm4h := false, confirm4h_reason := "na", ready := true, history_len := 20 }

/-- Candle with high 1, low 0, close 1. -/
def candleC1 : Candle := { ts := 0, o := 0, h := 1, l := 0, c := 1, v := 0 }

/-- Candle with high 1, low 0, close 0. -/
def candleC0 : Candle := { ts := 0, o := 0, h := 1, l := 0, c := 0, v := 0 }

/-- Eighty 4H candles whose first 20 closes are 1 and last 60 closes are 0:
the EMA over the last 60 closes is 0, the EMA over the last 80 closes is
positive. -/
def candles80Split : List Candle :=
  List.replicate 20 candleC1 ++ List.replicate 60 candleC0

/-- Ten 15m candles with a single bullish FVG whose middle candle is the
second-to-last bar, so only two candles lie at or after its creation. -/
def candlesFvgLate : List Candle :=
  [⟨0, 0, 10, 0, 0, 0⟩, ⟨1, 0, 10, 0, 0, 0⟩, ⟨2, 0, 10, 0, 0, 0⟩,
   ⟨3, 0, 10, 0, 0, 0⟩, ⟨4, 0, 10, 0, 0, 0⟩, ⟨5, 0, 10, 0, 0, 0⟩,
   ⟨6, 0, 10, 0, 0, 0⟩, ⟨7, 0, 1, 0, 0, 0⟩, ⟨8, 0, 10, 0, 0, 0⟩,
   ⟨9, 0, 10, 2, 0, 0⟩]

/-- Snapshot with no 4H candles but a huge spread. -/
def snapNoCandlesWideSpread : MarketSnapshot :=
  { symbol := "BTCUSDT", candles_15m := [], candles_1h := [], candles_4h := [],
    deriv_1h := derivNone, spread_pct := some 1 }

/-- Snapshot with no 4H candles and no spread quote. -/
def snapNoSpread : MarketSnapshot :=
  { symbol := "BTCUSDT", candles_15m := [], candles_1h := [], candles_4h := [],
    deriv_1h := derivNone, spread_pct := none }

/-- The reason tags of the soft squeeze classification path
(`gate2_derivatives.py` lines 260-272). -/
def softSqueezeReasons : List String :=
  ["funding_extreme_oi_spike", "ratio_crowded_oi_spike", "ratio_crowded_funding_extreme",
   "oi_spike", "funding_extreme", "ratio_crowded"]

/-- The spread-rejection reason tags of `gate1_htf_clarity` (line 60). -/
def spreadReasons : List String :=
  ["spread_too_wide_core", "spread_too_wide_major", "spread_too_wide_alt_low_price",
   "spread_too_wide_alt"]

/-- Ready context reaching the soft squeeze path with 4H confirmation:
ratio 68 (softly crowded, not a hard guard), small funding, OI spike z 2.6. -/
def ctxSoftSqueeze : Gate2DerivativesCtx :=
  { symbol := "XUSDT", exchange := "binance",
    last := { funding_rate := some ((1 : ℚ)/10000), open_interest := none,
              long_short_ratio := none, ratio_long_pct := some 68, meta := [] },
    ts := 0, bucket_ts := 0, oi_delta := none, oi_delta_pct := none,
    oi_spike_z := some ((13 : ℚ)/5), funding_z := some 1, funding_mean := some 0,
    funding_std := some ((1 : ℚ)/10000), ratio_dev := some 18, oi_slope_4h_pct := none,
    confirm4h := true, confirm4h_reason := "persist_ratio=2_fund=0", ready := true,
    history_len := 20 }

/-- Rolling-series point in bucket 3600. -/
def pointB1 : DerivPoint :=
  { ts := 3700, bucket_ts := 3600, exchange := "binance", symbol := "XUSDT",
    oi := some 1000, funding := some ((1 : ℚ)/10000), ratio_long_pct := some 55 }

/-- Rolling-series point in bucket 7200. -/
def pointB2 : DerivPoint :=
  { ts := 7300, bucket_ts := 7200, exchange := "binance", symbol := "XUSDT",
    oi := some 1100, funding := some ((1 : ℚ)/10000), ratio_long_pct := some 56 }

/-- A later observation in the same bucket 7200 (fresher values). -/
def pointB2' : DerivPoint :=
  { ts := 7900, bucket_ts := 7200, exchange := "binance", symbol := "XUSDT",
    oi := some 1200, funding := some ((2 : ℚ)/10000), ratio_long_pct := some 57 }

/-! ## Helper lemmas -/

/-- A string with a known first character differs from any string whose first
character is different (used for the dynamically suffixed reason tags). -/
theorem prefixed_ne (a t s : String) (c : Char)
    (ha : a.data.head?.or t.data.head? = some c) (hs : s.data.head? ≠ some c) :
    a ++ t ≠ s :=
  fun he => hs (by rw [← he, String.data_append, List.head?_append, ha])

/-- Membership in a stable insertion. -/
theorem insertLe_mem (le : α → α → Bool) (x y : α) (l : List α) :
    x ∈ insertLe le y l ↔ x = y ∨ x ∈ l := by
  induction l with
  | nil => simp [insertLe]
  | cons z rest ih =>
    unfold insertLe
    split
    · simp
    · simp only [List.mem_cons, ih]
      tauto

/-- Membership under stable insertion sort. -/
theorem insSort_mem (le : α → α → Bool) (x : α) (l : List α) :
    x ∈ insSort le l ↔ x ∈ l := by
  induction l with
  | nil => simp [insSort]
  | cons z rest ih =>
    unfold insSort
    rw [insertLe_mem]
    simp [ih]

/-- Stable insertion preserves sortedness for a transitive, total comparison. -/
theorem insertLe_pairwise (le : α → α → Bool)
    (htrans : ∀ a b c, le a b = true → le b c = true → le a c = true)
    (htotal : ∀ a b, (le a b || le b a) = true)
    (x : α) (l : List α) (h : l.Pairwise (fun a b => le a b = true)) :
    (insertLe le x l).Pairwise (fun a b => le a b = true) := by
  induction l with
  | nil => simp [insertLe]
  | cons y rest ih =>
    rw [List.pairwise_cons] at h
    obtain ⟨hy, hrest⟩ := h
    unfold insertLe
    split
    · rename_i hxy
      refine List.pairwise_cons.mpr ⟨?_, List.pairwise_cons.mpr ⟨hy, hrest⟩⟩
      intro z hz
      rcases List.mem_cons.mp hz with h1 | h1
      · exact h1 ▸ hxy
      · exact htrans x y z hxy (hy z h1)
    · rename_i hxy
      refine List.pairwise_cons.mpr ⟨?_, ih hrest⟩
      intro z hz
      rcases (insertLe_mem le z x rest).mp hz with h1 | h1
      · rw [h1]
        have ht := htotal x y
        rw [Bool.or_eq_true] at ht
        rcases ht with h2 | h2
        · exact absurd h2 hxy
        · exact h2
      · exact hy z h1

/-- Stable insertion sort sorts, for a transitive, total comparison. -/
theorem insSort_pairwise (le : α → α → Bool)
    (htrans : ∀ a b c, le a b = true → le b c = true → le a c = true)
    (htotal : ∀ a b, (le a b || le b a) = true) (l : List α) :
    (insSort le l).Pairwise (fun a b => le a b = true) := by
  induction l with
  | nil => simp [insSort]
  | cons x rest ih =>
    exact insertLe_pairwise le htrans htotal x _ ih

/-- Every Gate 2 result reason is a hard-guard tag (possibly alert-prefixed),
an insufficient-history tag, a soft squeeze tag, `"pass"` or `"neutral"`. -/
theorem gate2_reason_mem (s : MarketSnapshot) (ctx : Gate2DerivativesCtx) :
    (gate2_derivatives_regime s ctx).reason ∈
      ("alert_only_" ++ hardReason ctx) :: hardReason ctx ::
        ("insufficient_history_" ++ toString ctx.history_len) ::
          (softSqueezeReasons ++ ["pass", "neutral"]) := by
  by_cases h1 : hardHits ctx ≥ 2
  · by_cases h2 : ctx.ready <;> simp [gate2_derivatives_regime, h1, h2]
  · by_cases h2 : ctx.ready
    · by_cases h3 : squeezeHits ctx ≥ 2 ∧ (ctx.confirm4h ∨ squeezeHits ctx = 3)
      · simp only [gate2_derivatives_regime, h1, h2, h3, if_true, if_false,
          not_true, not_false_iff, ite_true, ite_false]
        simp [softSqueezeReason, softSqueezeReasons]
        by_cases ho : softOiSpike ctx <;> by_cases hf : softExtremeFunding ctx <;>
          by_cases hc : softCrowdedRatio ctx <;> simp [ho, hf, hc]
      · by_cases h4 : healthyOk ctx <;>
          simp [gate2_derivatives_regime, h1, h2, h3, h4]
    · simp [gate2_derivatives_regime, h1, h2]

/-- The hard-guard reason is one of four fixed tags. -/
theorem hardReason_mem (ctx : Gate2DerivativesCtx) :
    hardReason ctx ∈
      ["oi_spike_hard", "ratio_funding_hard", "ratio_crowded_hard", "funding_extreme_hard"] := by
  unfold hardReason
  split
  · simp
  · split
    · simp
    · split <;> simp

/-- No Gate 2 result carries one of the dead relaxation-branch reasons. -/
theorem gate2_reason_not_relax (s : MarketSnapshot) (ctx : Gate2DerivativesCtx) :
    (gate2_derivatives_regime s ctx).reason ∉ relaxationReasons := by
  have hm := gate2_reason_mem s ctx
  have hh := hardReason_mem ctx
  simp only [List.mem_cons, List.mem_append, List.not_mem_nil, or_false] at hm hh
  rcases hm with h | h | h | h | h
  · rw [h]
    rcases hh with h4 | h4 | h4 | h4 <;> rw [h4] <;> decide
  · rw [h]
    rcases hh with h4 | h4 | h4 | h4 <;> rw [h4] <;> decide
  · rw [h]
    simp only [relaxationReasons, List.mem_cons, List.not_mem_nil, or_false]
    push_neg
    refine ⟨?_, ?_, ?_, ?_⟩ <;>
      exact prefixed_ne "insufficient_history_" (toString ctx.history_len) _ 'i' rfl
        (by decide)
  · simp only [softSqueezeReasons, List.mem_cons, List.not_mem_nil, or_false] at h
    rcases h with h | h | h | h | h | h <;> rw [h] <;> decide
  · rcases h with h | h <;> rw [h] <;> decide

/-! ## Claim theorems -/

/-- C2: whenever at least 2 of the 3 hard guards fire (`ratio_long_pct ≥ 70`
or `≤ 30`; `|funding| ≥ 0.00020`; `oi_spike_z ≥ 3.0`),
`gate2_derivatives_regime` classifies the regime as `crowded_squeeze`, with
`passed = false` and `alert_only = true` when the context is not ready, and
`passed = true` with `alert_only = false` when it is ready; and every Gate 2
result with `alert_only = true` has `passed = false`. -/
theorem gate2_hard_guards_two_hits (s : MarketSnapshot) (ctx : Gate2DerivativesCtx)
    (h : 2 ≤ hardHits ctx) :
    ((gate2_derivatives_regime s ctx).regime = "crowded_squeeze"
      ∧ (ctx.ready = false →
          (gate2_derivatives_regime s ctx).passed = false
            ∧ (gate2_derivatives_regime s ctx).alert_only = true)
      ∧ (ctx.ready = true →
          (gate2_derivatives_regime s ctx).passed = true
            ∧ (gate2_derivatives_regime s ctx).alert_only = false))
    ∧ (∀ (s' : MarketSnapshot) (ctx' : Gate2DerivativesCtx),
        (gate2_derivatives_regime s' ctx').alert_only = true →
          (gate2_derivatives_regime s' ctx').passed = false) := by
  constructor
  · have hge : hardHits ctx ≥ 2 := h
    by_cases hr : ctx.ready <;> simp [gate2_derivatives_regime, hge, hr]
  · intro s' ctx' halert
    by_cases h1 : hardHits ctx' ≥ 2
    · by_cases h2 : ctx'.ready <;>
        simp [gate2_derivatives_regime, h1, h2] at halert ⊢
    · by_cases h2 : ctx'.ready
      · by_cases h3 : squeezeHits ctx' ≥ 2 ∧ (ctx'.confirm4h ∨ squeezeHits ctx' = 3)
        · simp [gate2_derivatives_regime, h1, h2, h3] at halert
        · by_cases h4 : healthyOk ctx' <;>
            simp [gate2_derivatives_regime, h1, h2, h3, h4] at halert
      · simp [gate2_derivatives_regime, h1, h2] at halert

theorem gate2_hard_guards_two_hits_witness :
    ((gate2_derivatives_regime snapMark50 ctxHardReady).regime = "crowded_squeeze"
      ∧ (gate2_derivatives_regime snapMark50 ctxHardReady).passed = true
      ∧ (gate2_derivatives_regime snapMark50 ctxHardReady).alert_only = false)
    ∧ ((gate2_derivatives_regime snapMark50 ctxHardNotReady).regime = "crowded_squeeze"
      ∧ (gate2_derivatives_regime snapMark50 ctxHardNotReady).passed = false
      ∧ (gate2_derivatives_regime snapMark50 ctxHardNotReady).alert_only = true) := by
  have h1 := gate2_hard_guards_two_hits snapMark50 ctxHardReady (by decide)
  have h2 := gate2_hard_guards_two_hits snapMark50 ctxHardNotReady (by decide)
  exact ⟨⟨h1.1.1, (h1.1.2.2 (by decide)).1, (h1.1.2.2 (by decide)).2⟩,
    ⟨h2.1.1, (h2.1.2.1 (by decide)).1, (h2.1.2.1 (by decide)).2⟩⟩

/-- C6: when the context is ready, fewer than 2 hard guards fire, the soft
squeeze condition (`hits ≥ 2` and (`confirm4h` or `hits = 3`)) does not hold,
and the healthy-trend bands do not all hold, `gate2_derivatives_regime`
returns `passed = false` with regime `neutral` and reason `"neutral"`; and
the ratio-skew relaxation branches placed after that return are unreachable:
no input produces any of their reason tags. -/
theorem gate2_neutral_fallthrough (s : MarketSnapshot) (ctx : Gate2DerivativesCtx)
    (hready : ctx.ready = true) (hhard : hardHits ctx < 2)
    (hsq : ¬(squeezeHits ctx ≥ 2 ∧ (ctx.confirm4h ∨ squeezeHits ctx = 3)))
    (hh : healthyOk ctx = false) :
    ((gate2_derivatives_regime s ctx).passed = false
      ∧ (gate2_derivatives_regime s ctx).regime = "neutral"
      ∧ (gate2_derivatives_regime s ctx).reason = "neutral")
    ∧ (∀ (s' : MarketSnapshot) (ctx' : Gate2DerivativesCtx),
        (gate2_derivatives_regime s' ctx').reason ∉ relaxationReasons) := by
  have h1 : ¬(hardHits ctx ≥ 2) := by omega
  exact ⟨by simp [gate2_derivatives_regime, h1, hready, hsq, hh],
    fun s' ctx' => gate2_reason_not_relax s' ctx'⟩

theorem gate2_neutral_fallthrough_witness :
    (gate2_derivatives_regime snapMark50 ctxNeutral).passed = false
      ∧ (gate2_derivatives_regime snapMark50 ctxNeutral).regime = "neutral"
      ∧ (gate2_derivatives_regime snapMark50 ctxNeutral).reason = "neutral" :=
  (gate2_neutral_fallthrough snapMark50 ctxNeutral (by decide) (by decide)
    (by decide) (by decide)).1

/-- C7 counterexample: a ready context with two hard guards firing, all three
stats defined and no 4H confirmation yields confidence HIGH with
`confirm4h = false`, so HIGH does not imply `confirm4h` on the hard-guard
path. -/
theorem gate2_high_without_confirm4h_cex :
    (gate2_derivatives_regime snapMark50 ctxHardReady).confidence = "HIGH"
      ∧ (gate2_derivatives_regime snapMark50 ctxHardReady).confirm4h = false := by
  decide

/-- C7 amended: only the soft squeeze classification path downgrades HIGH
confidence when the 4H confirmation is absent: whenever the result's reason
is one of the soft squeeze tags, confidence HIGH implies `confirm4h`.  (On
the hard-guard and healthy-trend paths confidence is HIGH whenever the
context is ready and all three stats are defined, regardless of
`confirm4h`.) -/
theorem gate2_soft_squeeze_high_implies_confirm4h (s : MarketSnapshot)
    (ctx : Gate2DerivativesCtx)
    (hr : (gate2_derivatives_regime s ctx).reason ∈ softSqueezeReasons)
    (hc : (gate2_derivatives_regime s ctx).confidence = "HIGH") :
    (gate2_derivatives_regime s ctx).confirm4h = true := by
  by_cases h1 : hardHits ctx ≥ 2
  · exfalso
    have hh := hardReason_mem ctx
    simp only [List.mem_cons, List.not_mem_nil, or_false] at hh
    by_cases h2 : ctx.ready <;> simp [gate2_derivatives_regime, h1, h2] at hr <;>
      rcases hh with h4 | h4 | h4 | h4 <;> rw [h4] at hr <;> revert hr <;> decide
  · by_cases h2 : ctx.ready
    · by_cases h3 : squeezeHits ctx ≥ 2 ∧ (ctx.confirm4h ∨ squeezeHits ctx = 3)
      · simp only [gate2_derivatives_regime, h1, h2, h3] at hc ⊢
        simp only [if_false, if_true, ite_true, ite_false, not_true,
          not_false_iff] at hc ⊢
        by_cases h5 : ctx.confirm4h
        · exact h5
        · exfalso
          by_cases h6 : allStatsDefined ctx <;> simp [h5, h6] at hc
      · exfalso
        by_cases h4 : healthyOk ctx <;>
          simp [gate2_derivatives_regime, h1, h2, h3, h4] at hr <;> revert hr <;>
            decide
    · exfalso
      simp only [gate2_derivatives_regime, h1, h2, if_false, ite_false, not_false_iff,
        ite_true, if_true] at hr
      simp only [softSqueezeReasons, List.mem_cons, List.not_mem_nil, or_false] at hr
      rcases hr with h | h | h | h | h | h <;>
        exact prefixed_ne "insufficient_history_" (toString ctx.history_len) _ 'i' rfl
          (by decide) h

theorem gate2_soft_squeeze_high_implies_confirm4h_witness :
    (gate2_derivatives_regime snapMark50 ctxSoftSqueeze).confirm4h = true :=
  gate2_soft_squeeze_high_implies_confirm4h snapMark50 ctxSoftSqueeze (by decide) (by decide)

/-- Members of `insPoint p l` are `p` itself or members of `l`. -/
theorem insPoint_mem (p x : DerivPoint) (l : List DerivPoint) (h : x ∈ insPoint p l) :
    x = p ∨ x ∈ l := by
  induction l with
  | nil =>
    simp only [insPoint, List.mem_singleton] at h
    exact Or.inl h
  | cons q rest ih =>
    unfold insPoint at h
    split at h
    · exact (List.mem_cons.mp h).imp id id
    · split at h
      · rcases List.mem_cons.mp h with h1 | h1
        · exact Or.inl h1
        · exact Or.inr (List.mem_cons_of_mem _ h1)
      · rcases List.mem_cons.mp h with h1 | h1
        · exact Or.inr (h1 ▸ List.mem_cons_self _ _)
        · rcases ih h1 with h2 | h2
          · exact Or.inl h2
          · exact Or.inr (List.mem_cons_of_mem _ h2)

/-- Sorted insertion preserves strict `bucket_ts` ordering. -/
theorem insPoint_pairwise (p : DerivPoint) (l : List DerivPoint)
    (h : l.Pairwise (fun a b => a.bucket_ts < b.bucket_ts)) :
    (insPoint p l).Pairwise (fun a b => a.bucket_ts < b.bucket_ts) := by
  induction l with
  | nil => simp [insPoint]
  | cons q rest ih =>
    rw [List.pairwise_cons] at h
    obtain ⟨hq, hrest⟩ := h
    unfold insPoint
    split
    · rename_i hlt
      refine List.pairwise_cons.mpr ⟨?_, List.pairwise_cons.mpr ⟨hq, hrest⟩⟩
      intro x hx
      rcases List.mem_cons.mp hx with h1 | h1
      · exact h1 ▸ hlt
      · exact lt_trans hlt (hq x h1)
    · split
      · rename_i hnlt heq
        exact List.pairwise_cons.mpr ⟨fun x hx => heq ▸ hq x hx, hrest⟩
      · rename_i hnlt hne
        have hgt : q.bucket_ts < p.bucket_ts := by omega
        refine List.pairwise_cons.mpr ⟨?_, ih hrest⟩
        intro x hx
        rcases insPoint_mem p x rest hx with h1 | h1
        · exact h1 ▸ hgt
        · exact hq x h1

/-- The bucket-deduplicated view is strictly sorted by `bucket_ts`. -/
theorem dedupByBucket_pairwise (pts : List DerivPoint) :
    (dedupByBucket pts).Pairwise (fun a b => a.bucket_ts < b.bucket_ts) := by
  suffices h : ∀ acc : List DerivPoint,
      acc.Pairwise (fun a b => a.bucket_ts < b.bucket_ts) →
        (pts.foldl (fun m p => insPoint p m) acc).Pairwise
          (fun a b => a.bucket_ts < b.bucket_ts) by
    exact h [] (by simp)
  induction pts with
  | nil => intro acc hacc; simpa using hacc
  | cons p rest ih =>
    intro acc hacc
    exact ih (insPoint p acc) (insPoint_pairwise p acc hacc)

/-- C5: the rolling series never exceeds 72 points; the filtered,
bucket-deduplicated read view has unique, strictly ascending `bucket_ts`
values; and an observation falling into the same 1H bucket as the last
stored point (same venue and symbol) overwrites that point in place, leaving
the series length unchanged. -/
theorem rolling_series_invariants (series : List DerivPoint) (p : DerivPoint)
    (exchange symbol : String) (hlen : series.length ≤ 72) :
    ((updateSeries series p 72).length ≤ 72)
    ∧ (readView series exchange symbol).Pairwise
        (fun a b => a.bucket_ts < b.bucket_ts)
    ∧ (∀ lp, series.getLast? = some lp →
        lp.bucket_ts = p.bucket_ts → lp.symbol = p.symbol → lp.exchange = p.exchange →
          updateSeries series p 72 = series.dropLast ++ [p]
            ∧ (updateSeries series p 72).length = series.length) := by
  refine ⟨?_, dedupByBucket_pairwise _, ?_⟩
  · by_cases hsa : shouldAppend series p
    · rw [updateSeries, if_pos hsa]
      simp only []
      split
      · rename_i hgt
        simp only [List.length_drop, List.length_append, List.length_singleton] at *
        omega
      · rename_i hngt
        simp only [List.length_append, List.length_singleton] at *
        omega
    · rw [updateSeries, if_neg hsa]
      have hne : series ≠ [] := by
        intro h
        rw [h] at hsa
        simp [shouldAppend] at hsa
      have hpos : 0 < series.length := List.length_pos.mpr hne
      simp only [List.length_append, List.length_dropLast, List.length_singleton]
      omega
  · intro lp hgl h1 h2 h3
    have hsa : ¬shouldAppend series p := by
      simp [shouldAppend, hgl, h1, h2, h3]
    have hne : series ≠ [] := by
      intro h
      rw [h] at hgl
      simp at hgl
    have hpos : 0 < series.length := List.length_pos.mpr hne
    rw [updateSeries, if_neg hsa]
    refine ⟨rfl, ?_⟩
    simp only [List.length_append, List.length_dropLast, List.length_singleton]
    omega

theorem rolling_series_invariants_witness :
    updateSeries [pointB1, pointB2] pointB2' 72 = [pointB1, pointB2']
      ∧ (updateSeries [pointB1, pointB2] pointB2' 72).length = 2 := by
  have h := (rolling_series_invariants [pointB1, pointB2] pointB2' "binance" "XUSDT"
    (by decide)).2.2 pointB2 (by decide) (by decide) (by decide) (by decide)
  exact ⟨h.1.trans (by decide), h.2.trans (by decide)⟩

/-- Every zone built by `_zone_from_gap` satisfies: positive fill implies
touched; outside the too-few-post-candles degenerate case the score is
`(1 − fill_pct) + 0.1`; and in the degenerate case `touched = false`,
`fill_pct = 0` and `score = 0`. -/
theorem zone_from_gap_props (kind : String) (t0 b0 : ℚ) (cs : List Candle) (ts : Int) :
    (0 < (zone_from_gap kind t0 b0 cs ts).fill_pct →
      (zone_from_gap kind t0 b0 cs ts).touched = true)
    ∧ ((zone_from_gap kind t0 b0 cs ts).reason ≠ "too_few_post_candles" →
        (zone_from_gap kind t0 b0 cs ts).score =
          (1 - (zone_from_gap kind t0 b0 cs ts).fill_pct) + (1 : ℚ)/10)
    ∧ ((zone_from_gap kind t0 b0 cs ts).reason = "too_few_post_candles" →
        (zone_from_gap kind t0 b0 cs ts).touched = false
          ∧ (zone_from_gap kind t0 b0 cs ts).fill_pct = 0
          ∧ (zone_from_gap kind t0 b0 cs ts).score = 0) := by
  have hTF : ∀ (k : String) (t b ht : ℚ) (post : List Candle),
      0 < (zoneTouchFill k t b ht post).2 → (zoneTouchFill k t b ht post).1 = true := by
    intro k t b ht post hpos
    unfold zoneTouchFill at hpos ⊢
    split at hpos
    · simp at hpos
    · rename_i q qs
      by_cases h1 : k = "FVG_BULL"
      · simp only [h1, if_true, ite_true] at hpos ⊢
        split at hpos
        · rename_i h2
          simp [h2]
        · simp at hpos
      · simp only [h1, if_false, ite_false] at hpos ⊢
        split at hpos
        · rename_i h2
          simp [h2]
        · simp at hpos
  have hRe : ∀ (tch : Bool) (fp : ℚ), zoneReason tch fp ≠ "too_few_post_candles" := by
    intro tch fp
    unfold zoneReason
    split
    · decide
    · split
      · decide
      · split <;> decide
  by_cases h3 : (postCandles cs ts).length < 3
  · refine ⟨?_, ?_, ?_⟩ <;> simp [zone_from_gap, h3]
  · simp only [zone_from_gap, h3, if_false, ite_false]
    exact ⟨hTF _ _ _ _ _, fun _ => by simp, fun hr => absurd hr (hRe _ _)⟩

/-- The descending (score, created_ts) comparison is transitive. -/
theorem zoneKeyGE_trans (a b c : Zone) (h1 : zoneKeyGE a b) (h2 : zoneKeyGE b c) :
    zoneKeyGE a c := by
  simp only [zoneKeyGE, decide_eq_true_eq] at *
  rcases h1 with h1 | ⟨h1e, h1t⟩ <;> rcases h2 with h2 | ⟨h2e, h2t⟩
  · exact Or.inl (lt_trans h2 h1)
  · exact Or.inl (h2e ▸ h1)
  · exact Or.inl (h1e ▸ h2)
  · exact Or.inr ⟨h1e.trans h2e, le_trans h2t h1t⟩

/-- The descending (score, created_ts) comparison is total. -/
theorem zoneKeyGE_total (a b : Zone) : zoneKeyGE a b || zoneKeyGE b a := by
  simp only [zoneKeyGE, Bool.or_eq_true, decide_eq_true_eq]
  rcases lt_trichotomy a.score b.score with h | h | h
  · exact Or.inr (Or.inl h)
  · rcases Int.le_total a.created_ts b.created_ts with ht | ht
    · exact Or.inr (Or.inr ⟨h.symm, ht⟩)
    · exact Or.inl (Or.inr ⟨h, ht⟩)
  · exact Or.inl (Or.inl h)

/-- Every zone emitted by `find_fvg_15m` is built by `_zone_from_gap`. -/
theorem find_fvg_mem_eq (cs : List Candle) (lb : Nat) (z : Zone)
    (hz : z ∈ find_fvg_15m cs lb) :
    ∃ kind t0 b0 c ts, z = zone_from_gap kind t0 b0 c ts := by
  unfold find_fvg_15m at hz
  split at hz
  · simp at hz
  · rw [insSort_mem] at hz
    simp only [List.mem_flatMap] at hz
    obtain ⟨t, _, hz⟩ := hz
    rw [List.mem_append] at hz
    rcases hz with hz | hz
    · split at hz
      · simp only [List.mem_singleton] at hz
        exact ⟨_, _, _, _, _, hz⟩
      · simp at hz
    · split at hz
      · simp only [List.mem_singleton] at hz
        exact ⟨_, _, _, _, _, hz⟩
      · simp at hz

/-- C9: for every zone produced by `find_fvg_15m`, positive fill implies
touched; zones with at least 3 post-creation candles carry score
`(1 − fill_pct) + 0.1` while the degenerate too-few-post-candles zones have
`touched = false`, `fill_pct = 0` and `score = 0`; and the returned list is
sorted descending by (score, created_ts). -/
theorem find_fvg_props (cs : List Candle) (lb : Nat) (z : Zone)
    (hz : z ∈ find_fvg_15m cs lb) :
    (0 < z.fill_pct → z.touched = true)
    ∧ (z.reason ≠ "too_few_post_candles" →
        z.score = (1 - z.fill_pct) + (1 : ℚ)/10)
    ∧ (z.reason = "too_few_post_candles" →
        z.touched = false ∧ z.fill_pct = 0 ∧ z.score = 0)
    ∧ (find_fvg_15m cs lb).Pairwise (fun a b => zoneKeyGE a b = true) := by
  obtain ⟨kind, t0, b0, c, ts, hzeq⟩ := find_fvg_mem_eq cs lb z hz
  have hprops := zone_from_gap_props kind t0 b0 c ts
  rw [← hzeq] at hprops
  refine ⟨hprops.1, hprops.2.1, hprops.2.2, ?_⟩
  unfold find_fvg_15m
  split
  · simp
  · exact insSort_pairwise zoneKeyGE
      (fun a b c => zoneKeyGE_trans a b c) (fun a b => zoneKeyGE_total a b) _

/-- C9 counterexample: on `candlesFvgLate` the single produced zone has only
two post-creation candles, so its score is `0`, not `(1 − fill_pct) + 0.1`,
and `touched` is false — refuting the unconditional score formula. -/
theorem find_fvg_score_cex :
    (find_fvg_15m candlesFvgLate 120).map Zone.score = [0]
      ∧ (find_fvg_15m candlesFvgLate 120).map Zone.fill_pct = [0]
      ∧ ¬((0 : ℚ) = (1 - 0) + (1 : ℚ)/10) := by
  decide

theorem find_fvg_props_witness :
    ((find_fvg_15m candlesFvgLate 120).headD zone100110).touched = false
      ∧ ((find_fvg_15m candlesFvgLate 120).headD zone100110).fill_pct = 0
      ∧ ((find_fvg_15m candlesFvgLate 120).headD zone100110).score = 0 :=
  (find_fvg_props candlesFvgLate 120 _ (by decide)).2.2.1 (by decide)

/-- C10 counterexample: when the 4H history is too short, Gate 1 rejects with
`insufficient_4h_candles` even though `spread_pct` is a number far above the
tier maximum, so a spread rejection is not produced exactly when the spread
exceeds the cap. -/
theorem gate1_spread_skip_cex :
    (gate1_htf_clarity snapNoCandlesWideSpread).reason = "insufficient_4h_candles"
      ∧ snapNoCandlesWideSpread.spread_pct = some 1
      ∧ (spreadTier snapNoCandlesWideSpread.symbol).1 < 1
      ∧ "insufficient_4h_candles" ∉ spreadReasons := by
  decide

/-- C10 amended: a missing `spread_pct` silently skips the spread filter
(`gate1_htf_clarity` never rejects for spread); and once the 4H bias
computes, a spread rejection is produced exactly when `spread_pct` is a
number strictly exceeding the symbol-tier maximum. -/
theorem gate1_spread_exactness (s : MarketSnapshot) :
    (s.spread_pct = none → (gate1_htf_clarity s).reason ∉ spreadReasons)
    ∧ ((gate1_htf_clarity s).reason ∈ spreadReasons ↔
        ((compute_htf_bias s.candles_4h 60).isSome
          ∧ ∃ v, s.spread_pct = some v ∧ (spreadTier s.symbol).1 < v)) := by
  have htag : "spread_too_wide_" ++ (spreadTier s.symbol).2 ∈ spreadReasons := by
    simp only [spreadTier]
    split
    · decide
    · split
      · decide
      · split <;> decide
  have hother : ∀ (htf : HTFBias) (liq : LiquidityTargets),
      (if htf.bias = "range" ∧ ¬(htf.pos_pct ≤ ((3 : ℚ)/10) ∨ htf.pos_pct ≥ ((7 : ℚ)/10)) then
         ({ passed := false, reason := "mid_range_4h_range_regime",
            htf := some htf, liq := some liq } : Gate1Result)
       else if htf.bias ≠ "range" ∧ (((42 : ℚ)/100) < htf.pos_pct ∧ htf.pos_pct < ((58 : ℚ)/100))
       then
         { passed := false, reason := "mid_range_4h_trend_dead_mid",
           htf := some htf, liq := some liq }
       else if ¬(htf.bias = "up" ∨ htf.bias = "down" ∨
             (htf.bias = "range" ∧ (htf.location = "discount" ∨ htf.location = "premium"))) then
         { passed := false, reason := "no_clarity", htf := some htf, liq := some liq }
       else if liq.above = none ∧ liq.below = none then
         { passed := false, reason := "no_liquidity_target",
           htf := some htf, liq := some liq }
       else
         { passed := true, reason := "pass", htf := some htf,
           liq := some liq }).reason ∉ spreadReasons := by
    intro htf liq
    split
    · show "mid_range_4h_range_regime" ∉ spreadReasons
      decide
    · split
      · show "mid_range_4h_trend_dead_mid" ∉ spreadReasons
        decide
      · split
        · show "no_clarity" ∉ spreadReasons
          decide
        · split
          · show "no_liquidity_target" ∉ spreadReasons
            decide
          · show "pass" ∉ spreadReasons
            decide
  cases hh : compute_htf_bias s.candles_4h 60 with
  | none =>
    refine ⟨fun _ => by simp [gate1_htf_clarity, hh]; decide, ?_⟩
    simp only [gate1_htf_clarity, hh, Option.isSome_none, Bool.false_eq_true,
      false_and, iff_false]
    decide
  | some htf =>
    cases hsp : s.spread_pct with
    | none =>
      constructor
      · intro _
        simp only [gate1_htf_clarity, hh, hsp]
        exact hother htf _
      · simp only [hsp, gate1_htf_clarity, hh]
        constructor
        · intro hmem
          exact absurd hmem (hother htf _)
        · rintro ⟨-, v, hv, -⟩
          exact absurd hv (by simp)
    | some v =>
      constructor
      · intro hnone
        exact absurd hnone (by simp)
      · by_cases hv : v > (spreadTier s.symbol).1
        · simp only [gate1_htf_clarity, hh, hsp, hv, if_true, ite_true]
          simp only [htag, true_iff]
          exact ⟨rfl, v, rfl, hv⟩
        · simp only [gate1_htf_clarity, hh, hsp, hv, if_false, ite_false]
          constructor
          · intro hmem
            exact absurd hmem (hother htf _)
          · rintro ⟨-, v', hv', hgt⟩
            obtain rfl : v = v' := by injection hv'
            exact absurd hgt hv

theorem gate1_spread_exactness_witness :
    (gate1_htf_clarity snapNoSpread).reason ∉ spreadReasons :=
  (gate1_spread_exactness snapNoSpread).1 rfl

/-- The slice `xs[-n:]` has length `n` when the list is long enough. -/
theorem sliceLast_length (l : List α) (n : Nat) (h : n ≤ l.length) (hn : n ≠ 0) :
    (sliceLast l n).length = n := by
  simp only [sliceLast, hn, if_false, ite_false, List.length_drop]
  omega

/-- The slice `xs[-n:]` is the whole list when `n` covers it. -/
theorem sliceLast_of_le (l : List α) (n : Nat) (h : l.length ≤ n) :
    sliceLast l n = l := by
  unfold sliceLast
  split
  · rfl
  · rw [Nat.sub_eq_zero_of_le h, List.drop_zero]

/-- Dropping elements from the front does not change the last element, as
long as something remains. -/
theorem getLast?_drop_of_lt (l : List α) (n : Nat) (h : n < l.length) :
    (l.drop n).getLast? = l.getLast? := by
  conv_rhs => rw [← List.take_append_drop n l]
  rw [List.getLast?_append]
  cases hl : (l.drop n).getLast? with
  | none =>
    rw [List.getLast?_eq_none_iff] at hl
    have := congrArg List.length hl
    simp only [List.length_drop, List.length_nil] at this
    omega
  | some x => rfl

set_option maxRecDepth 8000 in
/-- C8 counterexample: on `candles80Split` the returned `ema20` is the EMA
over the last 60 closes (all zero), which differs from the first-value-seeded
EMA(20) over the last 80 closes. -/
theorem htf_ema_window_cex :
    (compute_htf_bias candles80Split 60).map HTFBias.ema20 = some (some 0)
      ∧ ema (sliceLast (candles80Split.map Candle.c) 80) 20 ≠ some 0 := by
  decide

/-- C8 amended: for every 4H candle list accepted by `compute_htf_bias`
(≥ 80 candles, positive range), `ema20` and `ema50` are the first-value-seeded
EMA(20) and EMA(50) over the last 60 closes (the location window, not the
last 80), and `ema50_slope` is the last running EMA50 value minus the value
two update steps earlier (the first of the last three stored values). -/
theorem htf_ema_amended (candles : List Candle) (b : HTFBias)
    (h : compute_htf_bias candles 60 = some b) :
    b.ema20 = ema ((sliceLast candles 60).map Candle.c) 20
    ∧ b.ema50 = ema ((sliceLast candles 60).map Candle.c) 50
    ∧ b.ema50_slope =
        some ((emaRunning ((sliceLast candles 60).map Candle.c) 50).getLastD 0
          - (emaRunning ((sliceLast candles 60).map Candle.c) 50).getD
              ((emaRunning ((sliceLast candles 60).map Candle.c) 50).length - 3) 0) := by
  simp only [compute_htf_bias] at h
  split at h
  · exact absurd h (by simp)
  · rename_i hlen
    split at h
    · exact absurd h (by simp)
    · rename_i r0 rs heq
      split at h
      · exact absurd h (by simp)
      · rename_i hrng
        have hlen' : 80 ≤ candles.length := by
          rw [Nat.not_lt, Nat.max_le] at hlen
          exact hlen.1
        have hrecl : (sliceLast candles 60).length = 60 :=
          sliceLast_length candles 60 (by omega) (by omega)
        have hcl : ((sliceLast candles 60).map Candle.c).length = 60 := by
          rw [List.length_map, hrecl]
        have hcl' : (r0.c :: rs.map Candle.c).length = 60 := by
          rw [← hcl, heq]
          simp
        have hcloses : (r0 :: rs).map Candle.c = (sliceLast candles 60).map Candle.c := by
          rw [heq]
        have hslice80 : sliceLast ((r0 :: rs).map Candle.c) 80 = (r0 :: rs).map Candle.c :=
          sliceLast_of_le _ 80 (by rw [hcloses, hcl]; omega)
        have hslice120 : sliceLast ((r0 :: rs).map Candle.c) 120 = (r0 :: rs).map Candle.c :=
          sliceLast_of_le _ 120 (by rw [hcloses, hcl]; omega)
        rw [Option.some_inj] at h
        subst h
        simp only [List.map_cons] at hslice80 hslice120 hcloses
        have hrlen : (emaRunning (r0.c :: rs.map Candle.c) 50).length = 59 := by
          simp only [emaRunning, List.length_drop, List.length_scanl]
          simp only [List.length_cons, List.length_map] at hcl'
          rw [List.length_map]
          omega
        have htail : emaSeriesTail (r0.c :: rs.map Candle.c) 50 3 =
            (emaRunning (r0.c :: rs.map Candle.c) 50).drop 56 := by
          rw [emaSeriesTail]
          rw [if_neg (by rw [hcl']; omega)]
          show sliceLast ((emaRunning (r0.c :: rs.map Candle.c) 50)) 3 = _
          unfold sliceLast
          rw [if_neg (by omega), hrlen]
        refine ⟨?_, ?_, ?_⟩
        · simp only [heq, List.map_cons, hslice80]
        · simp only [heq, List.map_cons, hslice80]
        · simp only [heq, List.map_cons, hslice120, htail, hrlen]
          have hcond : 2 ≤ (List.drop 56 (emaRunning (r0.c :: rs.map Candle.c) 50)).length := by
            rw [List.length_drop, hrlen]
            omega
          rw [if_pos hcond]
          have hgl : ((emaRunning (r0.c :: rs.map Candle.c) 50).drop 56).getLastD 0 =
              (emaRunning (r0.c :: rs.map Candle.c) 50).getLastD 0 := by
            rw [List.getLastD_eq_getLast?, List.getLastD_eq_getLast?,
              getLast?_drop_of_lt _ 56 (by omega)]
          have hhd : ((emaRunning (r0.c :: rs.map Candle.c) 50).drop 56).headD 0 =
              (emaRunning (r0.c :: rs.map Candle.c) 50).getD 56 0 := by
            rw [List.headD_eq_head?_getD, List.head?_drop, List.getD_eq_getElem?_getD]
          rw [hgl, hhd]

set_option maxRecDepth 8000 in
theorem htf_ema_amended_witness :
    ((compute_htf_bias candles80Split 60).getD htfDefault).ema20
      = ema ((sliceLast candles80Split 60).map Candle.c) 20 :=
  (htf_ema_amended candles80Split _ (by decide)).1

/-- The R-multiple padding loop only appends. -/
theorem padTPs_prefix (fuel : Nat) (e r : ℚ) (i : String) (l : List TPLevel) :
    ∃ suff, padTPs fuel e r i l = l ++ suff := by
  induction fuel generalizing l with
  | zero => exact ⟨[], by simp [padTPs]⟩
  | succ n ih =>
    rw [padTPs]
    split
    · obtain ⟨suff, hs⟩ := ih (l ++ [⟨"TP" ++ toString (l.length + 1),
        if i = "LONG" then e + (2 + ((l.length - 2 : Nat) : ℚ)) * r
        else e - (2 + ((l.length - 2 : Nat) : ℚ)) * r,
        "fallback_" ++ toString (2 + (l.length - 2)) ++ ".0R"⟩])
      rw [hs, List.append_assoc]
      exact ⟨_, rfl⟩
    · exact ⟨[], by simp⟩

/-- With enough fuel the padding loop reaches five levels. -/
theorem padTPs_ge (fuel : Nat) (e r : ℚ) (i : String) (l : List TPLevel)
    (h : 5 ≤ l.length + fuel) : 5 ≤ (padTPs fuel e r i l).length := by
  induction fuel generalizing l with
  | zero =>
    rw [padTPs]
    omega
  | succ n ih =>
    rw [padTPs]
    split
    · rename_i h5
      refine le_trans (le_of_eq rfl) (ih _ ?_)
      simp only [List.length_append, List.length_singleton]
      omega
    · omega

/-- C1 counterexample: a LONG plan whose TP2 candidate lies between the 2R
and 3R fallbacks produces the ladder (TP1 111.5, TP2 122, TP3 118, TP4 124.5,
TP5 131), which is not strictly increasing, refuting monotonicity. -/
theorem build_plan_monotone_cex :
    (build_plan_v0 snapMark105 g1Empty g2Neutral g3Long122 ((5 : ℚ)/2) ((15 : ℚ)/100)
        ((25 : ℚ)/100)).map (fun p => p.tps.map TPLevel.price)
      = some [(223 : ℚ)/2, 122, 118, (249 : ℚ)/2, 131]
    ∧ (build_plan_v0 snapMark105 g1Empty g2Neutral g3Long122 ((5 : ℚ)/2) ((15 : ℚ)/100)
        ((25 : ℚ)/100)).map TradePlan.intent = some "LONG"
    ∧ ¬List.Chain' (· < ·) [(223 : ℚ)/2, 122, 118, (249 : ℚ)/2, 131] := by
  refine ⟨by decide, by decide, ?_⟩
  intro hc
  rw [List.chain'_cons, List.chain'_cons] at hc
  have h23 : (122 : ℚ) < 118 := hc.2.1
  revert h23
  decide

/-- The padded, truncated ladder always has exactly 5 levels. -/
theorem padTPs_length_take (e r : ℚ) (i : String) (l : List TPLevel) :
    ((padTPs 5 e r i l).take 5).length = 5 := by
  rw [List.length_take]
  have := padTPs_ge 5 e r i l (by omega)
  omega

/-- `planTps` always returns exactly 5 levels. -/
theorem planTps_length (g1 : Gate1Result) (g3 : Gate3Result) (zone : Zone)
    (intent : String) (tp2 : ℚ) (cs15 : List Candle) (pz pa : ℚ) :
    (planTps g1 g3 zone intent tp2 cs15 pz pa).length = 5 := by
  simp only [planTps]
  exact padTPs_length_take _ _ _ _

/-- C1 amended: every plan returned by `build_plan_v0` carries exactly 5
take-profit levels.  (Strict monotonicity of the ladder in the intent
direction does not hold in general: the R-multiple fallbacks TP3..TP5 and the
1R TP1 adjustment are not compared against TP2.) -/
theorem build_plan_five_tps (s : MarketSnapshot) (g1 : Gate1Result) (g2 : Gate2Result)
    (g3 : Gate3Result) (mrr pz pa : ℚ) (p : TradePlan)
    (h : build_plan_v0 s g1 g2 g3 mrr pz pa = some p) :
    p.tps.length = 5 := by
  simp only [build_plan_v0] at h
  split at h
  · exact absurd h (by simp)
  · split at h
    · exact absurd h (by simp)
    · split at h
      · exact absurd h (by simp)
      · exact absurd h (by simp)
      · split at h
        · exact absurd h (by simp)
        · split at h
          · exact absurd h (by simp)
          · split at h
            · exact absurd h (by simp)
            · split at h
              · exact absurd h (by simp)
              · rw [Option.some_inj] at h
                subst h
                exact planTps_length _ _ _ _ _ _ _ _

theorem build_plan_five_tps_witness :
    ((build_plan_v0 snapMark105 g1Empty g2Neutral g3Long122 ((5 : ℚ)/2) ((15 : ℚ)/100)
        ((25 : ℚ)/100)).getD planDefault).tps.length = 5 :=
  build_plan_five_tps snapMark105 g1Empty g2Neutral g3Long122 ((5 : ℚ)/2) ((15 : ℚ)/100)
    ((25 : ℚ)/100) _ (by decide)

/-- The second ladder entry is always the TP2 candidate. -/
theorem planTps_get1 (g1 : Gate1Result) (g3 : Gate3Result) (zone : Zone)
    (intent : String) (tp2 : ℚ) (cs15 : List Candle) (pz pa : ℚ) :
    (planTps g1 g3 zone intent tp2 cs15 pz pa)[1]? =
      some ⟨"TP2", tp2, "gate1_liq_or_struct_fallback"⟩ := by
  simp only [planTps]
  obtain ⟨suff, hs⟩ := padTPs_prefix 5 (planEntry1 zone)
    (planRisk zone intent cs15 pz pa) intent
    ([⟨"TP1", (planTp1 g3 zone intent tp2 cs15 pz pa).1,
        (planTp1 g3 zone intent tp2 cs15 pz pa).2⟩,
      ⟨"TP2", tp2, "gate1_liq_or_struct_fallback"⟩] ++
        ((nextLiqLevels (if intent = "LONG"
            then (g1.liq.map LiquidityTargets.swing_highs).getD []
            else (g1.liq.map LiquidityTargets.swing_lows).getD []) tp2 intent 3).enumFrom
          3).map fun li => ⟨"TP" ++ toString li.1, li.2, "4h_swing_liq_ladder"⟩)
  rw [hs]
  simp [List.take_succ_cons, List.get?]

/-- C3: a plan is returned only when the risk:reward to TP2, computed by
`_rr` as `|tp2 − entry| / |entry − sl|` from entry1 or from entry2, reaches
`min_rr_tp2`; when both are below the threshold or undefined, `build_plan_v0`
returns `None` (so the scorer is never reached). -/
theorem build_plan_rr_guard (s : MarketSnapshot) (g1 : Gate1Result) (g2 : Gate2Result)
    (g3 : Gate3Result) (mrr pz pa : ℚ) (p : TradePlan)
    (h : build_plan_v0 s g1 g2 g3 mrr pz pa = some p) :
    p.rr_tp2 = rr p.entry1 p.sl (((p.tps.get? 1).map TPLevel.price).getD 0)
    ∧ p.rr_tp2_entry2 =
        rr (p.entry2.getD 0) p.sl (((p.tps.get? 1).map TPLevel.price).getD 0)
    ∧ p.entry2.isSome = true
    ∧ ((∃ v, p.rr_tp2 = some v ∧ mrr ≤ v) ∨ (∃ v, p.rr_tp2_entry2 = some v ∧ mrr ≤ v)) := by
  simp only [build_plan_v0] at h
  split at h
  · exact absurd h (by simp)
  · split at h
    · exact absurd h (by simp)
    · split at h
      · exact absurd h (by simp)
      · exact absurd h (by simp)
      · split at h
        · exact absurd h (by simp)
        · split at h
          · exact absurd h (by simp)
          · split at h
            · exact absurd h (by simp)
            · split at h
              · exact absurd h (by simp)
              · rename_i zone tp2 hzone htp2 scrut mval hmark hm hrisk hrr
                rw [Option.some_inj] at h
                subst h
                refine ⟨?_, ?_, rfl, ?_⟩
                · simp [planTps_get1]
                · simp [planTps_get1]
                · rw [not_not, Bool.or_eq_true] at hrr
                  rcases hrr with h1 | h1
                  · left
                    unfold rrOk at h1
                    split at h1
                    · rename_i v hv
                      exact ⟨v, by simp [hv], by
                        rw [decide_eq_true_eq] at h1
                        exact h1⟩
                    · exact absurd h1 (by simp)
                  · right
                    unfold rrOk at h1
                    split at h1
                    · rename_i v hv
                      exact ⟨v, by simp [hv], by
                        rw [decide_eq_true_eq] at h1
                        exact h1⟩
                    · exact absurd h1 (by simp)

theorem build_plan_rr_guard_witness :
    ((build_plan_v0 snapMark105 g1Empty g2Neutral g3Long122 ((5 : ℚ)/2) ((15 : ℚ)/100)
        ((25 : ℚ)/100)).getD planDefault).rr_tp2
      = rr ((build_plan_v0 snapMark105 g1Empty g2Neutral g3Long122 ((5 : ℚ)/2)
            ((15 : ℚ)/100) ((25 : ℚ)/100)).getD planDefault).entry1
          ((build_plan_v0 snapMark105 g1Empty g2Neutral g3Long122 ((5 : ℚ)/2)
            ((15 : ℚ)/100) ((25 : ℚ)/100)).getD planDefault).sl
          (((((build_plan_v0 snapMark105 g1Empty g2Neutral g3Long122 ((5 : ℚ)/2)
            ((15 : ℚ)/100) ((25 : ℚ)/100)).getD planDefault).tps.get? 1).map
              TPLevel.price).getD 0) :=
  (build_plan_rr_guard snapMark105 g1Empty g2Neutral g3Long122 ((5 : ℚ)/2) ((15 : ℚ)/100)
    ((25 : ℚ)/100) _ (by decide)).1

/-- The normalised zone satisfies `bottom ≤ mid ≤ top`. -/
theorem normZone_facts (zone : Zone) :
    (normZone zone).2.1 ≤ (normZone zone).2.2
      ∧ (normZone zone).2.2 ≤ (normZone zone).1 := by
  unfold normZone
  split <;> rename_i hlt <;> constructor <;> simp only [] <;> linarith

/-- The SL padding is strictly positive. -/
theorem planPad_pos (zone : Zone) (cs15 : List Candle) (pz pa : ℚ) :
    0 < planPad zone cs15 pz pa := by
  unfold planPad
  have h1 : (0 : ℚ) < (1 : ℚ)/1000000000000 := by norm_num
  calc (0 : ℚ) < (1 : ℚ)/1000000000000 := h1
    _ ≤ max _ ((1 : ℚ)/1000000000000) := le_max_right _ _
    _ ≤ _ := le_max_right _ _

/-- C4 counterexample: `build_plan_v0` performs no comparison between the
entries and the mark price, so it returns a LONG plan whose entries lie
entirely above the mark (entry min 100 vs mark 50), refuting
`min(entry1, entry2) ≤ mark`. -/
theorem build_plan_mark_cex :
    (build_plan_v0 snapMark50 g1Empty g2Neutral g3Long122 ((5 : ℚ)/2) ((15 : ℚ)/100)
        ((25 : ℚ)/100)).map
        (fun p => (p.intent, min p.entry1 (p.entry2.getD p.entry1))) = some ("LONG", 100)
    ∧ markOf snapMark50 = some 50
    ∧ ¬((100 : ℚ) ≤ 50) := by
  refine ⟨by decide, by decide, by decide⟩

/-- C4 amended: for every plan returned by `build_plan_v0`, LONG plans have
`sl < min(entry1, entry2)` and SHORT plans have `sl > max(entry1, entry2)`,
with `risk_per_unit = |entry1 − sl| > 0`; no comparison with the mark price
is made, so `min(entry1, entry2) ≤ mark` can fail. -/
theorem build_plan_sl_entries (s : MarketSnapshot) (g1 : Gate1Result) (g2 : Gate2Result)
    (g3 : Gate3Result) (mrr pz pa : ℚ) (p : TradePlan)
    (h : build_plan_v0 s g1 g2 g3 mrr pz pa = some p) :
    (p.intent = "LONG" → p.sl < min p.entry1 (p.entry2.getD p.entry1))
    ∧ (p.intent = "SHORT" → max p.entry1 (p.entry2.getD p.entry1) < p.sl)
    ∧ p.risk_per_unit = |p.entry1 - p.sl|
    ∧ 0 < p.risk_per_unit := by
  simp only [build_plan_v0] at h
  split at h
  · exact absurd h (by simp)
  · split at h
    · exact absurd h (by simp)
    · split at h
      · exact absurd h (by simp)
      · exact absurd h (by simp)
      · split at h
        · exact absurd h (by simp)
        · split at h
          · exact absurd h (by simp)
          · split at h
            · exact absurd h (by simp)
            · split at h
              · exact absurd h (by simp)
              · rename_i zone tp2 hzone htp2 scrut mval hmark hm hrisk hrr
                rw [Option.some_inj] at h
                subst h
                have hz := normZone_facts zone
                have hpad := planPad_pos zone s.candles_15m pz pa
                have hrisk' : (1 : ℚ)/1000000000000 < planRisk zone (planIntent g3)
                    s.candles_15m pz pa := lt_of_not_le hrisk
                refine ⟨?_, ?_, rfl, ?_⟩
                · intro hL
                  simp only [] at hL
                  simp only [hL, planEntry2, planSl, planEntry1, if_true, ite_true,
                    Option.getD_some]
                  rw [min_eq_right hz.1]
                  linarith
                · intro hS
                  simp only [] at hS
                  simp only [hS, planEntry2, planSl, planEntry1, Option.getD_some,
                    if_neg (show ¬("SHORT" : String) = "LONG" by decide)]
                  rw [max_eq_right hz.2]
                  linarith
                · have : (0 : ℚ) < (1 : ℚ)/1000000000000 := by norm_num
                  simp only []
                  linarith

theorem build_plan_sl_entries_witness :
    ((build_plan_v0 snapMark105 g1Empty g2Neutral g3Long122 ((5 : ℚ)/2) ((15 : ℚ)/100)
        ((25 : ℚ)/100)).getD planDefault).sl
      < min ((build_plan_v0 snapMark105 g1Empty g2Neutral g3Long122 ((5 : ℚ)/2)
            ((15 : ℚ)/100) ((25 : ℚ)/100)).getD planDefault).entry1
          (((build_plan_v0 snapMark105 g1Empty g2Neutral g3Long122 ((5 : ℚ)/2)
            ((15 : ℚ)/100) ((25 : ℚ)/100)).getD planDefault).entry2.getD
            ((build_plan_v0 snapMark105 g1Empty g2Neutral g3Long122 ((5 : ℚ)/2)
              ((15 : ℚ)/100) ((25 : ℚ)/100)).getD planDefault).entry1) :=
  (build_plan_sl_entries snapMark105 g1Empty g2Neutral g3Long122 ((5 : ℚ)/2)
    ((15 : ℚ)/100) ((25 : ℚ)/100) _ (by decide)).1 (by decide)

end AMP
